import Mathlib

/-!
# Verification of the URDF → USD converter core

A shallow embedding, over exact rationals, of the converter's core logic:

* `planar_joint.py` — planar-joint axis alignment and limit locks;
* `link.py` — inertia-tensor canonicalization, ghost-root handling,
  per-joint descriptor emission;
* `convert.py` — the end-of-conversion warning pass;
* `urdf_parser/parser.py` (with `elements.py` and
  `reserved_element_attribute_names.py`) — the schema-aware,
  line-tracking URDF parser and the undefined-content collection.

Floating-point values are modelled as exact rationals.  Calls into
external numeric libraries (square root, trigonometry from `Gf`/`math`,
and the eigendecomposition `np.linalg.eigh`) are modelled as explicit
parameters, constrained in theorems by their mathematical contracts.
-/

open scoped Matrix

/-! ## Basic numeric model -/

/-- 3-component float vector (`Gf.Vec3f`/`Gf.Vec3d`), modelled exactly. -/
structure Vec3 where
  x : ℚ
  y : ℚ
  z : ℚ
deriving DecidableEq, Repr

/-- Squared Euclidean length of a `Vec3`. -/
def Vec3.normSq (v : Vec3) : ℚ := v.x * v.x + v.y * v.y + v.z * v.z

/-- Dot product (`Gf.Dot`). -/
def Vec3.dot (a b : Vec3) : ℚ := a.x * b.x + a.y * b.y + a.z * b.z

/-- Cross product (`Gf.Cross`). -/
def Vec3.cross (a b : Vec3) : Vec3 :=
  ⟨a.y * b.z - a.z * b.y, a.z * b.x - a.x * b.z, a.x * b.y - a.y * b.x⟩

/-- Componentwise division of a vector by a scalar. -/
def Vec3.compDiv (v : Vec3) (m : ℚ) : Vec3 := ⟨v.x / m, v.y / m, v.z / m⟩

/-- Quaternion (`Gf.Quatd`), in `(real, i, j, k)` component order as in the
`Gf.Quatd(w, x, y, z)` constructor. -/
structure Quat where
  w : ℚ
  x : ℚ
  y : ℚ
  z : ℚ
deriving DecidableEq, Repr

/-- The identity quaternion `Gf.Quatd.GetIdentity()`. -/
def Quat.one : Quat := ⟨1, 0, 0, 0⟩

/-- Hamilton product of quaternions (the `*` of `Gf.Quatd`). -/
def Quat.mul (a b : Quat) : Quat :=
  ⟨a.w * b.w - a.x * b.x - a.y * b.y - a.z * b.z,
   a.w * b.x + a.x * b.w + a.y * b.z - a.z * b.y,
   a.w * b.y - a.x * b.z + a.y * b.w + a.z * b.x,
   a.w * b.z + a.x * b.y - a.y * b.x + a.z * b.w⟩

/-- Squared quaternion norm. -/
def Quat.normSq (q : Quat) : ℚ := q.w * q.w + q.x * q.x + q.y * q.y + q.z * q.z

/-- `np.finfo(np.float32).eps` = 2⁻²³, the epsilon used throughout
`planar_joint.py`. -/
def epsF32 : ℚ := 1 / 8388608

/-- `GF_MIN_VECTOR_LENGTH` = 1e-10, the default epsilon of
`Gf.Vec3f.GetNormalized`. -/
def minVecLen : ℚ := 1 / 10000000000

/-- The exact real functions the Python code obtains from `math`/`numpy`/`Gf`
(square root, arc cosine, sine, cosine).  They are irrational-valued in
general, so the embedding takes them as a parameter; theorems constrain them
by their mathematical contract at the points where they are evaluated. -/
structure RealFns where
  sqrt : ℚ → ℚ
  acos : ℚ → ℚ
  sin : ℚ → ℚ
  cos : ℚ → ℚ

/-- `Gf.Vec3f.GetLength()`. -/
def getLength (F : RealFns) (v : Vec3) : ℚ := F.sqrt v.normSq

/-- `Gf.Vec3f.GetNormalized()`: divides by `max(length, GF_MIN_VECTOR_LENGTH)`
(so the zero vector normalizes to the zero vector). -/
def getNormalized (F : RealFns) (v : Vec3) : Vec3 :=
  v.compDiv (max (getLength F v) minVecLen)

/-! ## `planar_joint.py` -/

/-- The `UsdPhysics.Tokens.x/y/z` axis tokens. -/
inductive AxisTok where
  | x
  | y
  | z
deriving DecidableEq, Repr

/-- `UsdPhysics` limit tokens: `transX/transY/transZ/rotX/rotY/rotZ`. -/
inductive LimitTok where
  | transX
  | transY
  | transZ
  | rotX
  | rotY
  | rotZ
deriving DecidableEq, Repr

/-- `_align_vector_to_x_axis` from `planar_joint.py`: the minimal rotation
mapping world +X onto `axis`, via the cross-product axis–angle construction. -/
def alignVectorToXAxis (F : RealFns) (axis : Vec3) : Quat :=
  let rotationAxis := Vec3.cross ⟨1, 0, 0⟩ axis
  let rotationAxisNorm := getNormalized F rotationAxis
  if getLength F rotationAxisNorm < epsF32 then Quat.one
  else
    let dotProduct := Vec3.dot axis ⟨1, 0, 0⟩
    let angle := F.acos (min (max dotProduct (-1)) 1)
    ⟨F.cos (angle / 2),
     rotationAxisNorm.x * F.sin (angle / 2),
     rotationAxisNorm.y * F.sin (angle / 2),
     rotationAxisNorm.z * F.sin (angle / 2)⟩

/-- `_get_axis_alignment` from `planar_joint.py`: the axis token and
frame-correction orientation for a planar-joint axis. -/
def getAxisAlignment (F : RealFns) (axis : Vec3) : AxisTok × Quat :=
  let a := getNormalized F axis
  let axisToken := AxisTok.x
  let orientation := Quat.one
  if getLength F a < epsF32 then (axisToken, orientation)
  else if |a.x - 1| < epsF32 then (AxisTok.x, orientation)
  else if |a.y - 1| < epsF32 then (AxisTok.y, orientation)
  else if |a.z - 1| < epsF32 then (AxisTok.z, orientation)
  else if |a.x + 1| < epsF32 then (AxisTok.x, orientation.mul ⟨a.y, a.z, a.x, 0⟩)
  else if |a.y + 1| < epsF32 then (AxisTok.y, orientation.mul ⟨a.x, a.y, a.z, 0⟩)
  else if |a.z + 1| < epsF32 then (AxisTok.z, orientation.mul ⟨a.y, a.z, a.x, 0⟩)
  else (AxisTok.x, orientation.mul (alignVectorToXAxis F a))

/-- The observable output of `define_physics_planar_joint`: the per-axis
limit locks (each authored with `low = high = 0`) and the frame-correction
orientation that is passed to `_compute_local_transform` for both body
frames.  (Stage/prim plumbing and the body world transforms are external.) -/
structure PlanarJointData where
  locks : List (LimitTok × ℚ × ℚ)
  orientation : Quat
deriving DecidableEq, Repr

/-- `define_physics_planar_joint` from `planar_joint.py`: the incoming
`joint_frame.orientation` is discarded and replaced by the alignment
orientation; the locks are chosen by the axis token. -/
def definePhysicsPlanarJoint (F : RealFns) (axis : Vec3) : PlanarJointData :=
  let ta := getAxisAlignment F axis
  let locks : List (LimitTok × ℚ × ℚ) :=
    match ta.1 with
    | AxisTok.x => [(LimitTok.transX, 0, 0), (LimitTok.rotY, 0, 0), (LimitTok.rotZ, 0, 0)]
    | AxisTok.y => [(LimitTok.transY, 0, 0), (LimitTok.rotX, 0, 0), (LimitTok.rotZ, 0, 0)]
    | AxisTok.z => [(LimitTok.transZ, 0, 0), (LimitTok.rotX, 0, 0), (LimitTok.rotY, 0, 0)]
  { locks := locks, orientation := ta.2 }

/-! ### Theorems about the planar joint (C3, C10) -/

theorem getAxisAlignment_unitZ (F : RealFns) (h1 : F.sqrt 1 = 1) :
    getAxisAlignment F ⟨0, 0, 1⟩ = (AxisTok.z, Quat.one) := by
  have hn : Vec3.normSq ⟨0, 0, 1⟩ = 1 := by norm_num [Vec3.normSq]
  have hm : max (F.sqrt (Vec3.normSq ⟨0, 0, 1⟩)) minVecLen = 1 := by
    rw [hn, h1]; norm_num [minVecLen]
  have ha : getNormalized F ⟨0, 0, 1⟩ = ⟨0, 0, 1⟩ := by
    simp only [getNormalized, getLength, hm, Vec3.compDiv]
    norm_num
  simp only [getAxisAlignment, ha, getLength, hn, h1]
  norm_num [epsF32]

theorem getAxisAlignment_negZ (F : RealFns) (h1 : F.sqrt 1 = 1) :
    getAxisAlignment F ⟨0, 0, -1⟩ = (AxisTok.z, ⟨0, -1, 0, 0⟩) := by
  have hn : Vec3.normSq ⟨0, 0, -1⟩ = 1 := by norm_num [Vec3.normSq]
  have hm : max (F.sqrt (Vec3.normSq ⟨0, 0, -1⟩)) minVecLen = 1 := by
    rw [hn, h1]; norm_num [minVecLen]
  have ha : getNormalized F ⟨0, 0, -1⟩ = ⟨0, 0, -1⟩ := by
    simp only [getNormalized, getLength, hm, Vec3.compDiv]
    norm_num
  simp only [getAxisAlignment, ha, getLength, hn, h1]
  norm_num [epsF32, Quat.mul, Quat.one]

/-- C3: for a planar joint with axis (0,0,1), the emitted joint locks
translation Z, rotation X and rotation Y (each with low = high = 0), and
locks none of translation X, translation Y, rotation Z; for axis (0,0,-1)
the same three locks are emitted together with a 180-degree-class
frame-correction orientation (a unit quaternion with zero real part)
applied to the joint's body frames. -/
theorem planar_axis_z_locks (F : RealFns) (h1 : F.sqrt 1 = 1) :
    (definePhysicsPlanarJoint F ⟨0, 0, 1⟩).locks =
      [(LimitTok.transZ, 0, 0), (LimitTok.rotX, 0, 0), (LimitTok.rotY, 0, 0)] ∧
    (definePhysicsPlanarJoint F ⟨0, 0, 1⟩).orientation = Quat.one ∧
    (∀ lo hi : ℚ,
      (LimitTok.transX, lo, hi) ∉ (definePhysicsPlanarJoint F ⟨0, 0, 1⟩).locks ∧
      (LimitTok.transY, lo, hi) ∉ (definePhysicsPlanarJoint F ⟨0, 0, 1⟩).locks ∧
      (LimitTok.rotZ, lo, hi) ∉ (definePhysicsPlanarJoint F ⟨0, 0, 1⟩).locks) ∧
    (definePhysicsPlanarJoint F ⟨0, 0, -1⟩).locks =
      [(LimitTok.transZ, 0, 0), (LimitTok.rotX, 0, 0), (LimitTok.rotY, 0, 0)] ∧
    (definePhysicsPlanarJoint F ⟨0, 0, -1⟩).orientation.w = 0 ∧
    (definePhysicsPlanarJoint F ⟨0, 0, -1⟩).orientation.normSq = 1 := by
  have hz := getAxisAlignment_unitZ F h1
  have hnz := getAxisAlignment_negZ F h1
  refine ⟨?_, ?_, ?_, ?_, ?_, ?_⟩ <;>
    simp [definePhysicsPlanarJoint, hz, hnz, Quat.normSq]

/-- Concrete sqrt model used by witnesses: correct at the inputs the
planar-joint theorems evaluate it on. -/
def sqrtW : RealFns :=
  ⟨fun q => if q = 1 then 1 else 0, fun q => q, fun q => q, fun q => q⟩

theorem planar_axis_z_locks_witness :
    sqrtW.sqrt 1 = 1 ∧
    (definePhysicsPlanarJoint sqrtW ⟨0, 0, 1⟩).locks =
      [(LimitTok.transZ, 0, 0), (LimitTok.rotX, 0, 0), (LimitTok.rotY, 0, 0)] :=
  ⟨by decide, (planar_axis_z_locks sqrtW (by decide)).1⟩

/-- C10 (amended): for the exactly-zero axis vector, planar joint creation
does not fail: `_get_axis_alignment` returns the X token with the identity
orientation, and the joint is emitted exactly as for axis +X (locks on
translation X, rotation Y, rotation Z; no frame correction).  This does NOT
extend to every nonzero axis of length below machine epsilon: such an axis
normalizes to a unit vector and is aligned like any other direction (see the
counterexample). -/
theorem planar_zero_axis_as_plus_x (F : RealFns)
    (h0 : F.sqrt 0 = 0) (h1 : F.sqrt 1 = 1) :
    getAxisAlignment F ⟨0, 0, 0⟩ = (AxisTok.x, Quat.one) ∧
    definePhysicsPlanarJoint F ⟨0, 0, 0⟩ = definePhysicsPlanarJoint F ⟨1, 0, 0⟩ ∧
    (definePhysicsPlanarJoint F ⟨0, 0, 0⟩).locks =
      [(LimitTok.transX, 0, 0), (LimitTok.rotY, 0, 0), (LimitTok.rotZ, 0, 0)] ∧
    (definePhysicsPlanarJoint F ⟨0, 0, 0⟩).orientation = Quat.one := by
  have hn0 : Vec3.normSq ⟨0, 0, 0⟩ = 0 := by norm_num [Vec3.normSq]
  have ha : getNormalized F ⟨0, 0, 0⟩ = ⟨0, 0, 0⟩ := by
    simp only [getNormalized, Vec3.compDiv]
    norm_num
  have hzero : getAxisAlignment F ⟨0, 0, 0⟩ = (AxisTok.x, Quat.one) := by
    simp only [getAxisAlignment, ha, getLength, hn0, h0]
    norm_num [epsF32]
  have hnx : Vec3.normSq ⟨1, 0, 0⟩ = 1 := by norm_num [Vec3.normSq]
  have hmx : max (F.sqrt (Vec3.normSq ⟨1, 0, 0⟩)) minVecLen = 1 := by
    rw [hnx, h1]; norm_num [minVecLen]
  have hax : getNormalized F ⟨1, 0, 0⟩ = ⟨1, 0, 0⟩ := by
    simp only [getNormalized, getLength, hmx, Vec3.compDiv]
    norm_num
  have hx : getAxisAlignment F ⟨1, 0, 0⟩ = (AxisTok.x, Quat.one) := by
    simp only [getAxisAlignment, hax, getLength, hnx, h1]
    norm_num [epsF32]
  refine ⟨hzero, ?_, ?_, ?_⟩ <;>
    simp [definePhysicsPlanarJoint, hzero, hx]

theorem planar_zero_axis_as_plus_x_witness :
    sqrtW.sqrt 0 = 0 ∧ sqrtW.sqrt 1 = 1 ∧
    definePhysicsPlanarJoint sqrtW ⟨0, 0, 0⟩ = definePhysicsPlanarJoint sqrtW ⟨1, 0, 0⟩ :=
  ⟨by decide, by decide, (planar_zero_axis_as_plus_x sqrtW (by decide) (by decide)).2.1⟩

/-- Concrete sqrt model that is exact on the inputs arising for the axis
(0, 0, 1e-8): `sqrt 1e-16 = 1e-8` and `sqrt 1 = 1`. -/
def sqrtTiny : RealFns :=
  ⟨fun q => if q = 1 / 10000000000000000 then 1 / 100000000 else if q = 1 then 1 else 0,
   fun q => q, fun q => q, fun q => q⟩

/-! ## `link.py`: inertia-tensor canonicalization (`extract_inertia`) -/

/-- 3×3 matrices over exact rationals. -/
abbrev Mat3 := Matrix (Fin 3) (Fin 3) ℚ

/-- `Gf.IsClose(a, b, eps)`: absolute-tolerance closeness. -/
def isCloseQ (a b eps : ℚ) : Bool := |a - b| < eps

/-- `np.argmax(np.abs(c))` for a 3-vector: first index of the maximum
absolute value. -/
def argmaxAbs3 (c : Fin 3 → ℚ) : Fin 3 :=
  let i1 : Fin 3 := if |c 1| > |c 0| then 1 else 0
  if |c 2| > |c i1| then 2 else i1

/-- The sign flip applied to one eigenvector column in
`_canonicalize_eigenvectors`: `-1` when the largest-magnitude component is
negative, else `1`. -/
def colSign (c : Fin 3 → ℚ) : ℚ := if c (argmaxAbs3 c) < 0 then -1 else 1

/-- Column `j` of a matrix (`eigenvectors[:, j]`). -/
def matCol (V : Mat3) (j : Fin 3) : Fin 3 → ℚ := fun i => V i j

/-- The non-degenerate branch of `_canonicalize_eigenvectors`: flip each
column's sign so its largest-magnitude component is positive. -/
def signFlipColumns (V : Mat3) : Mat3 :=
  Matrix.of fun i j => colSign (matCol V j) * V i j

/-- `eigenvectors[:, -1] = -eigenvectors[:, -1]`: negate the last column. -/
def negLastCol (W : Mat3) : Mat3 :=
  Matrix.of fun i j => if j = 2 then -(W i j) else W i j

def dot3 (a b : Fin 3 → ℚ) : ℚ := a 0 * b 0 + a 1 * b 1 + a 2 * b 2

def normSq3 (a : Fin 3 → ℚ) : ℚ := dot3 a a

def cross3 (a b : Fin 3 → ℚ) : Fin 3 → ℚ :=
  ![a 1 * b 2 - a 2 * b 1, a 2 * b 0 - a 0 * b 2, a 0 * b 1 - a 1 * b 0]

/-- The two-degenerate-eigenvalues branch of `_canonicalize_eigenvectors`:
project world +X (retrying with +Y) onto the plane perpendicular to the
unique axis, normalize and sign-fix it, and complete with the cross
product.  Returns `none` when both projections are below tolerance (the
source then leaves the eigenvector matrix unchanged).
`np.linalg.norm` is modelled through the square-root parameter. -/
def canonDegenerate (F : RealFns) (axis : Fin 3 → ℚ) :
    Option ((Fin 3 → ℚ) × (Fin 3 → ℚ)) :=
  let ref : Fin 3 → ℚ := ![1, 0, 0]
  let proj := fun i => ref i - dot3 ref axis * axis i
  let n := F.sqrt (normSq3 proj)
  let pn : (Fin 3 → ℚ) × ℚ :=
    if n < 1 / 10000000000 then
      let ref2 : Fin 3 → ℚ := ![0, 1, 0]
      let proj2 := fun i => ref2 i - dot3 ref2 axis * axis i
      (proj2, F.sqrt (normSq3 proj2))
    else (proj, n)
  if pn.2 ≥ 1 / 10000000000 then
    let v1 := fun i => pn.1 i / pn.2
    let w1 := if v1 (argmaxAbs3 v1) < 0 then fun i => -v1 i else v1
    some (w1, cross3 axis w1)
  else none

/-- `_canonicalize_eigenvectors` from `link.py`: makes the eigenvector
matrix of a symmetric 3×3 matrix deterministic (identity when all three
eigenvalues agree within 1e-9, canonical in-plane basis when exactly two
agree, per-column sign convention plus a det = +1 correction otherwise). -/
def canonicalizeEigenvectors (F : RealFns) (ev : Fin 3 → ℚ) (V : Mat3) : Mat3 :=
  let eq01 := isCloseQ (ev 0) (ev 1) (1 / 1000000000)
  let eq12 := isCloseQ (ev 1) (ev 2) (1 / 1000000000)
  if eq01 && eq12 then 1
  else if eq01 then
    match canonDegenerate F (matCol V 2) with
    | some (v1, v2) =>
        Matrix.of fun i j => if j = 0 then v1 i else if j = 1 then v2 i else V i 2
    | none => V
  else if eq12 then
    match canonDegenerate F (matCol V 0) with
    | some (v1, v2) =>
        Matrix.of fun i j => if j = 0 then V i 0 else if j = 1 then v1 i else v2 i
    | none => V
  else
    let W := signFlipColumns V
    if W.det < 0 then negLastCol W else W

/-- The symmetric inertia tensor built by `extract_inertia` from the six
independent components. -/
def inertiaMatrix (ixx ixy ixz iyy iyz izz : ℚ) : Mat3 :=
  !![ixx, ixy, ixz; ixy, iyy, iyz; ixz, iyz, izz]

/-- `extract_inertia` from `link.py`, downstream of the external
eigendecomposition: `np.linalg.eigh` (which contractually returns
eigenvalues in ascending order with orthonormal eigenvectors) is external
numpy code, so its result `eig` is a parameter; the function canonicalizes
the eigenvector matrix and returns it with the eigenvalues as the diagonal
inertia.  (The final conversion of the rotation matrix to a quaternion is
external `Gf` code.) -/
def extractInertia (F : RealFns) (ixx ixy ixz iyy iyz izz : ℚ)
    (eig : (Fin 3 → ℚ) × Mat3) : Mat3 × (Fin 3 → ℚ) :=
  (canonicalizeEigenvectors F eig.1 eig.2, eig.1)

/-! ### Theorems about `extract_inertia` (C1) -/

theorem signFlipColumns_eq_mul_diagonal (V : Mat3) :
    signFlipColumns V = V * Matrix.diagonal (fun j => colSign (matCol V j)) := by
  ext i j
  simp [signFlipColumns, Matrix.mul_diagonal, mul_comm]

theorem colSign_mul_self (c : Fin 3 → ℚ) : colSign c * colSign c = 1 := by
  unfold colSign
  split <;> norm_num

theorem negLastCol_eq_mul_diagonal (W : Mat3) :
    negLastCol W = W * Matrix.diagonal ![1, 1, -1] := by
  ext i j
  fin_cases j <;> simp [negLastCol, Matrix.mul_diagonal]

theorem orth_mul_diagonal {V : Mat3} (d : Fin 3 → ℚ)
    (h : Vᵀ * V = 1) (hd : ∀ j, d j * d j = 1) :
    (V * Matrix.diagonal d)ᵀ * (V * Matrix.diagonal d) = 1 := by
  rw [Matrix.transpose_mul, Matrix.diagonal_transpose]
  calc Matrix.diagonal d * Vᵀ * (V * Matrix.diagonal d)
      = Matrix.diagonal d * (Vᵀ * V) * Matrix.diagonal d := by
        simp [Matrix.mul_assoc]
    _ = Matrix.diagonal d * Matrix.diagonal d := by rw [h]; simp [Matrix.mul_assoc]
    _ = 1 := by
        rw [Matrix.diagonal_mul_diagonal]
        have hdd : (fun i => d i * d i) = fun _ : Fin 3 => (1 : ℚ) := funext fun j => hd j
        rw [hdd, Matrix.diagonal_one]

theorem eig_mul_diagonal {M V : Mat3} {ev : Fin 3 → ℚ} (d : Fin 3 → ℚ)
    (h : M * V = V * Matrix.diagonal ev) :
    M * (V * Matrix.diagonal d) = (V * Matrix.diagonal d) * Matrix.diagonal ev := by
  rw [← Matrix.mul_assoc, h, Matrix.mul_assoc, Matrix.mul_assoc,
    Matrix.diagonal_mul_diagonal, Matrix.diagonal_mul_diagonal]
  have hcomm : (fun i => ev i * d i) = fun i => d i * ev i :=
    funext fun i => mul_comm (ev i) (d i)
  rw [hcomm]

/-- C1: for every symmetric 3×3 inertia tensor whose eigenvalues are
pairwise distinct beyond the 1e-9 degeneracy tolerance, `extract_inertia`
(downstream of an eigendecomposition satisfying the `np.linalg.eigh`
contract: orthonormal eigenvectors, eigenvalues ascending) returns an
orientation that is a proper rotation — orthonormal columns and
determinant +1 — together with a diagonal-inertia vector equal to the
eigenvalues of the tensor in ascending order (the returned orientation
still diagonalizes the tensor with those eigenvalues). -/
theorem extract_inertia_distinct_proper_rotation (F : RealFns)
    (ixx ixy ixz iyy iyz izz : ℚ) (ev : Fin 3 → ℚ) (V : Mat3)
    (horth : Vᵀ * V = 1)
    (heig : inertiaMatrix ixx ixy ixz iyy iyz izz * V = V * Matrix.diagonal ev)
    (hasc : ev 0 ≤ ev 1 ∧ ev 1 ≤ ev 2)
    (h01 : ¬(|ev 0 - ev 1| < 1 / 1000000000))
    (h12 : ¬(|ev 1 - ev 2| < 1 / 1000000000)) :
    (extractInertia F ixx ixy ixz iyy iyz izz (ev, V)).1ᵀ *
        (extractInertia F ixx ixy ixz iyy iyz izz (ev, V)).1 = 1 ∧
    (extractInertia F ixx ixy ixz iyy iyz izz (ev, V)).1.det = 1 ∧
    inertiaMatrix ixx ixy ixz iyy iyz izz *
        (extractInertia F ixx ixy ixz iyy iyz izz (ev, V)).1 =
      (extractInertia F ixx ixy ixz iyy iyz izz (ev, V)).1 *
        Matrix.diagonal (extractInertia F ixx ixy ixz iyy iyz izz (ev, V)).2 ∧
    (extractInertia F ixx ixy ixz iyy iyz izz (ev, V)).2 = ev ∧
    ev 0 ≤ ev 1 ∧ ev 1 ≤ ev 2 := by
  simp only [extractInertia]
  have hc01 : isCloseQ (ev 0) (ev 1) (1 / 1000000000) = false := decide_eq_false h01
  have hc12 : isCloseQ (ev 1) (ev 2) (1 / 1000000000) = false := decide_eq_false h12
  set s : Fin 3 → ℚ := fun j => colSign (matCol V j) with hs
  have hsd : ∀ j, s j * s j = 1 := fun j => colSign_mul_self (matCol V j)
  have hW1 : signFlipColumns V = V * Matrix.diagonal s := signFlipColumns_eq_mul_diagonal V
  -- the canonicalization takes the non-degenerate branch
  have hcanon : canonicalizeEigenvectors F ev V =
      (if (signFlipColumns V).det < 0 then negLastCol (signFlipColumns V)
       else signFlipColumns V) := by
    unfold canonicalizeEigenvectors
    rw [hc01, hc12]
    simp
  -- orthonormality and eigen-equation for the sign-flipped matrix
  have horth1 : (V * Matrix.diagonal s)ᵀ * (V * Matrix.diagonal s) = 1 :=
    orth_mul_diagonal s horth hsd
  have heig1 : inertiaMatrix ixx ixy ixz iyy iyz izz * (V * Matrix.diagonal s) =
      (V * Matrix.diagonal s) * Matrix.diagonal ev := eig_mul_diagonal s heig
  -- determinant of the sign-flipped matrix squares to one
  have hdetV : V.det * V.det = 1 := by
    have h1 : (Vᵀ * V).det = (1 : Mat3).det := by rw [horth]
    rwa [Matrix.det_mul, Matrix.det_transpose, Matrix.det_one] at h1
  have hdetS : Matrix.det (Matrix.diagonal s) * Matrix.det (Matrix.diagonal s) = 1 := by
    rw [Matrix.det_diagonal, ← Finset.prod_mul_distrib]
    exact Finset.prod_eq_one fun j _ => hsd j
  have hdetW1 : (V * Matrix.diagonal s).det * (V * Matrix.diagonal s).det = 1 := by
    rw [Matrix.det_mul]
    calc V.det * (Matrix.diagonal s).det * (V.det * (Matrix.diagonal s).det)
        = V.det * V.det * ((Matrix.diagonal s).det * (Matrix.diagonal s).det) := by ring
      _ = 1 := by rw [hdetV, hdetS, one_mul]
  by_cases hneg : (signFlipColumns V).det < 0
  · -- determinant negative: the last column is flipped
    have hres : canonicalizeEigenvectors F ev V =
        (V * Matrix.diagonal s) * Matrix.diagonal ![1, 1, -1] := by
      rw [hcanon, if_pos hneg, negLastCol_eq_mul_diagonal, hW1]
    have hd2 : ∀ j : Fin 3, (![1, 1, -1] : Fin 3 → ℚ) j * ![1, 1, -1] j = 1 := by
      intro j; fin_cases j <;> norm_num
    have hdetW1neg : (V * Matrix.diagonal s).det = -1 := by
      rcases mul_self_eq_one_iff.mp hdetW1 with h | h
      · exfalso; rw [hW1] at hneg; rw [h] at hneg; norm_num at hneg
      · exact h
    refine ⟨?_, ?_, ?_, trivial, hasc.1, hasc.2⟩
    · show (canonicalizeEigenvectors F ev V)ᵀ * canonicalizeEigenvectors F ev V = 1
      rw [hres]
      exact orth_mul_diagonal _ horth1 hd2
    · show (canonicalizeEigenvectors F ev V).det = 1
      rw [hres, Matrix.det_mul, hdetW1neg, Matrix.det_diagonal]
      norm_num [Fin.prod_univ_three]
    · show inertiaMatrix ixx ixy ixz iyy iyz izz * canonicalizeEigenvectors F ev V =
        canonicalizeEigenvectors F ev V * Matrix.diagonal ev
      rw [hres]
      exact eig_mul_diagonal _ heig1
  · -- determinant nonnegative: it must be +1 already
    have hres : canonicalizeEigenvectors F ev V = V * Matrix.diagonal s := by
      rw [hcanon, if_neg hneg, hW1]
    have hdet1 : (V * Matrix.diagonal s).det = 1 := by
      rcases mul_self_eq_one_iff.mp hdetW1 with h | h
      · exact h
      · exfalso; rw [hW1] at hneg; rw [h] at hneg; norm_num at hneg
    exact ⟨by rw [hres]; exact horth1, by rw [hres, hdet1],
      by rw [hres]; exact heig1, trivial, hasc.1, hasc.2⟩

theorem extract_inertia_distinct_witness :
    ((1 : Mat3)ᵀ * 1 = 1) ∧
    (inertiaMatrix 1 0 0 2 0 3 * 1 = 1 * Matrix.diagonal ![1, 2, 3]) ∧
    ((![1, 2, 3] : Fin 3 → ℚ) 0 ≤ ![1, 2, 3] 1 ∧ (![1, 2, 3] : Fin 3 → ℚ) 1 ≤ ![1, 2, 3] 2) ∧
    (extractInertia sqrtW 1 0 0 2 0 3 (![1, 2, 3], 1)).1.det = 1 := by
  have heq : inertiaMatrix 1 0 0 2 0 3 = Matrix.diagonal ![1, 2, 3] := by
    ext i j
    fin_cases i <;> fin_cases j <;>
      simp [inertiaMatrix, Matrix.diagonal, Matrix.vecHead, Matrix.vecTail] <;> decide
  have hM : inertiaMatrix 1 0 0 2 0 3 * 1 = 1 * Matrix.diagonal ![1, 2, 3] := by
    rw [heq, Matrix.mul_one, Matrix.one_mul]
  refine ⟨by simp, hM, by norm_num, ?_⟩
  exact (extract_inertia_distinct_proper_rotation sqrtW 1 0 0 2 0 3 ![1, 2, 3] 1
    (by simp) hM (by norm_num) (by norm_num) (by norm_num)).2.1

/-- C10 counterexample: the axis (0, 0, 1e-8) has length 1e-8, strictly below
single-precision machine epsilon (2⁻²³ ≈ 1.19e-7), yet the joint is NOT
emitted as if the axis were +X: normalization rescales it to the unit +Z
vector and the Z-token lock set (translation Z, rotation X, rotation Y) is
produced.  The square root model is exact at both points it is evaluated. -/
theorem planar_tiny_axis_not_plus_x :
    Vec3.normSq ⟨0, 0, 1 / 100000000⟩ < epsF32 ^ 2 ∧
    sqrtTiny.sqrt (Vec3.normSq ⟨0, 0, 1 / 100000000⟩) ^ 2 =
      Vec3.normSq ⟨0, 0, 1 / 100000000⟩ ∧
    0 ≤ sqrtTiny.sqrt (Vec3.normSq ⟨0, 0, 1 / 100000000⟩) ∧
    sqrtTiny.sqrt 1 = 1 ∧
    definePhysicsPlanarJoint sqrtTiny ⟨0, 0, 1 / 100000000⟩ ≠
      definePhysicsPlanarJoint sqrtTiny ⟨1, 0, 0⟩ ∧
    (definePhysicsPlanarJoint sqrtTiny ⟨0, 0, 1 / 100000000⟩).locks =
      [(LimitTok.transZ, 0, 0), (LimitTok.rotX, 0, 0), (LimitTok.rotY, 0, 0)] := by
  have hn : Vec3.normSq ⟨0, 0, 1 / 100000000⟩ = 1 / 10000000000000000 := by
    norm_num [Vec3.normSq]
  have hs : sqrtTiny.sqrt (1 / 10000000000000000) = 1 / 100000000 := by
    norm_num [sqrtTiny]
  have hs1 : sqrtTiny.sqrt 1 = 1 := by norm_num [sqrtTiny]
  have hmax : max (sqrtTiny.sqrt (Vec3.normSq ⟨0, 0, 1 / 100000000⟩)) minVecLen =
      1 / 100000000 := by
    rw [hn, hs]; norm_num [minVecLen]
  have ha : getNormalized sqrtTiny ⟨0, 0, 1 / 100000000⟩ = ⟨0, 0, 1⟩ := by
    simp only [getNormalized, getLength, hmax, Vec3.compDiv]
    norm_num
  have htiny : getAxisAlignment sqrtTiny ⟨0, 0, 1 / 100000000⟩ = (AxisTok.z, Quat.one) := by
    have hn1 : Vec3.normSq ⟨0, 0, 1⟩ = 1 := by norm_num [Vec3.normSq]
    simp only [getAxisAlignment, ha, getLength, hn1, hs1]
    norm_num [epsF32]
  have hx : getAxisAlignment sqrtTiny ⟨1, 0, 0⟩ = (AxisTok.x, Quat.one) := by
    have hnx : Vec3.normSq ⟨1, 0, 0⟩ = 1 := by norm_num [Vec3.normSq]
    have hmx : max (sqrtTiny.sqrt (Vec3.normSq ⟨1, 0, 0⟩)) minVecLen = 1 := by
      rw [hnx, hs1]; norm_num [minVecLen]
    have hax : getNormalized sqrtTiny ⟨1, 0, 0⟩ = ⟨1, 0, 0⟩ := by
      simp only [getNormalized, getLength, hmx, Vec3.compDiv]
      norm_num
    simp only [getAxisAlignment, hax, getLength, hnx, hs1]
    norm_num [epsF32]
  refine ⟨by norm_num [Vec3.normSq, epsF32], ?_, ?_, ?_, ?_, ?_⟩
  · rw [hn, hs]; norm_num
  · rw [hn, hs]; norm_num
  · exact hs1
  · have hd1 : definePhysicsPlanarJoint sqrtTiny ⟨0, 0, 1 / 100000000⟩ =
        { locks := [(LimitTok.transZ, 0, 0), (LimitTok.rotX, 0, 0), (LimitTok.rotY, 0, 0)],
          orientation := Quat.one } := by
      simp only [definePhysicsPlanarJoint, htiny]
    have hd2 : definePhysicsPlanarJoint sqrtTiny ⟨1, 0, 0⟩ =
        { locks := [(LimitTok.transX, 0, 0), (LimitTok.rotY, 0, 0), (LimitTok.rotZ, 0, 0)],
          orientation := Quat.one } := by
      simp only [definePhysicsPlanarJoint, hx]
    rw [hd1, hd2]
    decide
  · have hd1 : definePhysicsPlanarJoint sqrtTiny ⟨0, 0, 1 / 100000000⟩ =
        { locks := [(LimitTok.transZ, 0, 0), (LimitTok.rotX, 0, 0), (LimitTok.rotY, 0, 0)],
          orientation := Quat.one } := by
      simp only [definePhysicsPlanarJoint, htiny]
    rw [hd1]

/-! ## `link.py` / `convert.py`: link conversion, joint emission, warnings

The converter-side document model, as `link.py` consumes it
(`ElementLink` with `inertial` plus `visuals`/`collisions` lists,
`ElementJoint` with its optional sub-blocks and `get_with_default`
defaults). -/

/-- An `origin` element (`ElementPose`): optional `xyz`/`rpy` with
defaults (0,0,0). -/
structure CPose where
  xyz : Option Vec3
  rpy : Option Vec3
deriving DecidableEq, Repr

/-- A `mass` element. -/
structure CMassE where
  value : Option ℚ
deriving DecidableEq, Repr

/-- An `inertia` element: the six independent tensor components, each
defaulting to 0. -/
structure CInertiaE where
  ixx : Option ℚ
  ixy : Option ℚ
  ixz : Option ℚ
  iyy : Option ℚ
  iyz : Option ℚ
  izz : Option ℚ
deriving DecidableEq, Repr

/-- An `inertial` block of a link. -/
structure CInertial where
  origin : Option CPose
  mass : Option CMassE
  inertia : Option CInertiaE
deriving DecidableEq, Repr

/-- A visual or collision entry of a link (geometry payload is consumed by
`convert_geometry`, which is outside the claims; presence is what the
ghost-root logic inspects). -/
structure CGeomEntry where
  name : Option String
deriving DecidableEq, Repr

/-- A link as `link.py` consumes it. -/
structure CLink where
  name : String
  inertial : Option CInertial
  visuals : List CGeomEntry
  collisions : List CGeomEntry
deriving DecidableEq, Repr

/-- An `axis` element: optional `xyz` with default (1,0,0). -/
structure CAxisE where
  xyz : Option Vec3
deriving DecidableEq, Repr

/-- A `limit` element: `lower`/`upper`/`effort`/`velocity`, each
defaulting to 0. -/
structure CLimit where
  lower : Option ℚ
  upper : Option ℚ
  effort : Option ℚ
  velocity : Option ℚ
deriving DecidableEq, Repr

structure CCalibration where
  referencePosition : Option ℚ
  rising : Option ℚ
  falling : Option ℚ
deriving DecidableEq, Repr

structure CDynamics where
  damping : Option ℚ
  friction : Option ℚ
deriving DecidableEq, Repr

structure CSafety where
  softLowerLimit : Option ℚ
  softUpperLimit : Option ℚ
  kPosition : Option ℚ
  kVelocity : Option ℚ
deriving DecidableEq, Repr

structure CMimic where
  joint : String
  multiplier : Option ℚ
  offset : Option ℚ
deriving DecidableEq, Repr

/-- A joint as `link.py` consumes it (`joint.parent.get_with_default("link")`
and `joint.child.get_with_default("link")` are flattened to the link
names). -/
structure CJoint where
  name : String
  jtype : String
  parentLink : String
  childLink : String
  axis : Option CAxisE
  limit : Option CLimit
  calibration : Option CCalibration
  dynamics : Option CDynamics
  safety : Option CSafety
  mimic : Option CMimic
deriving DecidableEq, Repr

/-- The robot document as the converter reads it
(`parser.get_root_element()`): for the warning pass only the presence of
transmissions and the tags of top-level undefined elements matter. -/
structure CRobot where
  name : String
  links : List CLink
  joints : List CJoint
  transmissionNames : List String
  undefinedTags : List String
deriving DecidableEq, Repr

/-- Ghost-root test from `link.py` (`physics_joints`, line 262, and
`convert_link`, line 63): no inertial block, no visuals, no collisions. -/
def isGhostLink (l : CLink) : Bool :=
  l.inertial.isNone && l.visuals.isEmpty && l.collisions.isEmpty

/-- `convert_link`'s rigid-body decision (line 67): `RigidBodyAPI` is
applied unless the link is the root link and that root is a ghost. -/
def convertLinkRigidBody (l : CLink) (isRootLink : Bool) : Bool :=
  let isGhost := isRootLink && l.inertial.isNone && l.visuals.isEmpty && l.collisions.isEmpty
  !isRootLink || !isGhost

/-- `math.degrees`: radians-to-degrees conversion, with the float constant
π abstracted as a parameter. -/
def degreesQ (piQ x : ℚ) : ℚ := x * 180 / piQ

/-- `joint.axis.get_with_default("xyz")` with the (1,0,0) default, or the
(1,0,0) fallback when there is no axis element (line 297). -/
def jointAxisOf (j : CJoint) : Vec3 :=
  match j.axis with
  | some a => a.xyz.getD ⟨1, 0, 0⟩
  | none => ⟨1, 0, 0⟩

/-- `joint.limit.get_with_default("lower") if joint.limit is not None else
0.0` (line 300). -/
def limitLowerOf (j : CJoint) : ℚ :=
  match j.limit with
  | some l => l.lower.getD 0
  | none => 0

/-- Same for the upper limit (line 301). -/
def limitUpperOf (j : CJoint) : ℚ :=
  match j.limit with
  | some l => l.upper.getD 0
  | none => 0

/-- The joint descriptors `physics_joints` hands to the authoring sink
(`usdex.core.definePhysics*Joint` / `define_physics_planar_joint`): body
references by prim name, kind-specific data.  `none` limits on a revolute
descriptor mean no limit is authored (unbounded). -/
inductive JointDesc where
  | fixedJ (name body0 body1 : String)
  | revoluteJ (name body0 body1 : String) (axis : Vec3) (lower upper : Option ℚ)
  | prismaticJ (name body0 body1 : String) (axis : Vec3) (lower upper : ℚ)
  | planarJ (name body0 body1 : String) (joint : PlanarJointData)
deriving DecidableEq, Repr

/-- The per-joint body of the `physics_joints` loop (lines 287-318): body0
falls back to the default prim when the root is a ghost; `fixed`,
`revolute`/`continuous`, `prismatic` and `planar` produce descriptors;
`floating` produces nothing (the branch is a bare `pass`). -/
def emitJoint (F : RealFns) (piQ : ℚ) (isGhost : Bool) (defaultPrim : String)
    (j : CJoint) : Option JointDesc :=
  let body0 := if isGhost then defaultPrim else j.parentLink
  let body1 := j.childLink
  let axis := jointAxisOf j
  let ll := limitLowerOf j
  let uu := limitUpperOf j
  if j.jtype = "fixed" then some (JointDesc.fixedJ j.name body0 body1)
  else if j.jtype = "revolute" || j.jtype = "continuous" then
    let lower := if j.jtype = "continuous" then none else some (degreesQ piQ ll)
    let upper := if j.jtype = "continuous" then none else some (degreesQ piQ uu)
    some (JointDesc.revoluteJ j.name body0 body1 axis lower upper)
  else if j.jtype = "prismatic" then
    some (JointDesc.prismaticJ j.name body0 body1 axis ll uu)
  else if j.jtype = "floating" then none
  else if j.jtype = "planar" then
    some (JointDesc.planarJ j.name body0 body1 (definePhysicsPlanarJoint F axis))
  else none

/-- `physics_joints` from `link.py`: when the root link is not a ghost, a
synthetic fixed joint named `root_joint` from the stage default prim
("world") to the root link is emitted first (lines 266-275); then every
document-declared joint is processed in order. -/
def physicsJoints (F : RealFns) (piQ : ℚ) (defaultPrim : String)
    (root : CLink) (joints : List CJoint) : List JointDesc :=
  let ghost := isGhostLink root
  (if !ghost then [JointDesc.fixedJ "root_joint" defaultPrim root.name] else [])
    ++ joints.filterMap (emitJoint F piQ ghost defaultPrim)

/-- `Converter.warn` from `convert.py` (lines 137-164): the complete
end-of-conversion diagnostics pass.  It covers transmissions, gazebo
elements, calibration, dynamics, mimic and safety-controller blocks —
and nothing else. -/
def warnPass (r : CRobot) : List String :=
  (if !r.transmissionNames.isEmpty then ["Transmissions are not supported"] else [])
    ++ (if r.undefinedTags.contains "gazebo" then ["Gazebo is not supported"] else [])
    ++ (if r.joints.any fun j => j.calibration.isSome then
          ["Calibration is not supported"] else [])
    ++ (if r.joints.any fun j => j.dynamics.isSome then
          ["Dynamics is not supported"] else [])
    ++ (if r.joints.any fun j => j.mimic.isSome then
          ["Mimic is not supported"] else [])
    ++ (if r.joints.any fun j => j.safety.isSome then
          ["Safety controller is not supported"] else [])

/-! ### Theorems about ghost roots, joint emission and diagnostics (C4, C5, C6) -/

theorem isGhostLink_eq_false_iff (l : CLink) :
    isGhostLink l = false ↔
      (l.inertial.isSome ∨ l.visuals ≠ [] ∨ l.collisions ≠ []) := by
  unfold isGhostLink
  cases l.inertial <;> cases l.visuals <;> cases l.collisions <;> simp

/-- C4: the synthetic fixed joint `root_joint` from the world (default
prim) to the root link is emitted, in addition to the document-declared
joints, exactly when the root link is not a ghost — that is, when it has
an inertial block, or at least one visual, or at least one collision; and
when the root is a ghost, `convert_link` applies no rigid-body marking to
it (while every non-root link always receives one). -/
theorem root_joint_iff_not_ghost (F : RealFns) (piQ : ℚ) (dp : String)
    (root : CLink) (joints : List CJoint) :
    physicsJoints F piQ dp root joints =
      (if root.inertial.isSome ∨ root.visuals ≠ [] ∨ root.collisions ≠ [] then
        [JointDesc.fixedJ "root_joint" dp root.name] else [])
      ++ joints.filterMap (emitJoint F piQ (isGhostLink root) dp) ∧
    (convertLinkRigidBody root true = true ↔
      (root.inertial.isSome ∨ root.visuals ≠ [] ∨ root.collisions ≠ [])) ∧
    (∀ l : CLink, convertLinkRigidBody l false = true) := by
  refine ⟨?_, ?_, fun l => by simp [convertLinkRigidBody]⟩
  · unfold physicsJoints
    by_cases h : isGhostLink root = false
    · rw [h]
      rw [if_pos ((isGhostLink_eq_false_iff root).mp h)]
      simp
    · rw [Bool.not_eq_false] at h
      rw [h]
      rw [if_neg fun hc => by
        rw [(isGhostLink_eq_false_iff root).mpr hc] at h
        exact Bool.false_ne_true h]
      simp
  · unfold convertLinkRigidBody
    rw [← isGhostLink_eq_false_iff root]
    unfold isGhostLink
    cases isGhostLink root <;>
      cases root.inertial <;> cases root.visuals <;> cases root.collisions <;> simp

/-- The concrete two-link document with a floating joint used to exhibit
C5's missing diagnostic (the shape of
`tests/data/simple_fixed_floating_joints.urdf`). -/
def baseLinkC : CLink := ⟨"base", some ⟨none, none, none⟩, [], []⟩

def toolLinkC : CLink := ⟨"tool", none, [], []⟩

def floatJointC : CJoint :=
  ⟨"floating_joint", "floating", "base", "tool", none, none, none, none, none, none⟩

def fixedJointC : CJoint :=
  ⟨"fixed_joint", "fixed", "base", "tool", none, none, none, none, none, none⟩

def floatDocC : CRobot :=
  ⟨"robot", [baseLinkC, toolLinkC], [floatJointC, fixedJointC], [], []⟩

/-- C5: for a joint of kind `floating`, `physics_joints` skips creation of
a joint descriptor (the branch is a bare `pass`) and conversion of the
rest of the document proceeds (the sibling fixed joint and the synthetic
root joint are still emitted) — but, contrary to the claim and to the
repository's own test `testConverterJoints.test_fixed_floating_joints`
(which expects a "Floating joints are not supported" warning from the
link module), no diagnostic whatsoever is emitted: the floating branch of
`physics_joints` warns nothing and `Converter.warn` has no floating-joint
case. -/
theorem floating_joint_skipped_without_diagnostic :
    emitJoint sqrtW 3 false "world" floatJointC = none ∧
    physicsJoints sqrtW 3 "world" baseLinkC floatDocC.joints =
      [JointDesc.fixedJ "root_joint" "world" "base",
       JointDesc.fixedJ "fixed_joint" "base" "tool"] ∧
    warnPass floatDocC = [] := by
  refine ⟨by decide, by decide, by decide⟩

/-- C6: for a revolute joint the emitted lower/upper limits are the input
limits (with the parser defaults) explicitly converted from radians to the
output's degrees via `math.degrees`; for a continuous joint the emitted
limits are `none` (no limit authored — unbounded), regardless of any limit
block present in the document. -/
theorem revolute_continuous_limits (F : RealFns) (piQ : ℚ) (g : Bool)
    (dp : String) (j : CJoint) :
    (j.jtype = "revolute" →
      emitJoint F piQ g dp j = some (JointDesc.revoluteJ j.name
        (if g then dp else j.parentLink) j.childLink (jointAxisOf j)
        (some (degreesQ piQ (limitLowerOf j)))
        (some (degreesQ piQ (limitUpperOf j))))) ∧
    (j.jtype = "continuous" →
      emitJoint F piQ g dp j = some (JointDesc.revoluteJ j.name
        (if g then dp else j.parentLink) j.childLink (jointAxisOf j)
        none none)) := by
  constructor
  · intro h
    simp [emitJoint, h]
  · intro h
    simp [emitJoint, h]

def revJointC : CJoint :=
  ⟨"rj", "revolute", "p", "c", none, some ⟨some 1, some 2, none, none⟩,
   none, none, none, none⟩

def contJointC : CJoint :=
  ⟨"cj", "continuous", "p", "c", none, some ⟨some 1, some 2, none, none⟩,
   none, none, none, none⟩

theorem revolute_continuous_limits_witness :
    emitJoint sqrtW 3 false "world" revJointC = some (JointDesc.revoluteJ "rj"
      "p" "c" ⟨1, 0, 0⟩ (some (degreesQ 3 1)) (some (degreesQ 3 2))) ∧
    emitJoint sqrtW 3 false "world" contJointC = some (JointDesc.revoluteJ "cj"
      "p" "c" ⟨1, 0, 0⟩ none none) :=
  ⟨(revolute_continuous_limits sqrtW 3 false "world" revJointC).1 rfl,
   (revolute_continuous_limits sqrtW 3 false "world" contJointC).2 rfl⟩

/-! ## `urdf_parser`: the schema-aware line-tracking parser

The XML input is modelled as a tree of nodes, each carrying its tag,
attribute map (insertion-ordered, as a Python dict), source line and text.
The line numbers come from `LineNumberTrackingParser`.

Modelled from the spec: `LineNumberTrackingParser` (not under `src/`)
"records the 1-based source line of every node"; accordingly each modelled
node carries its source line as input data. -/

inductive XmlNode where
  | mk (tag : String) (attrib : List (String × String)) (line : Int)
      (text : Option String) (children : List XmlNode)

def XmlNode.tag : XmlNode → String
  | .mk t _ _ _ _ => t

def XmlNode.attrib : XmlNode → List (String × String)
  | .mk _ a _ _ _ => a

def XmlNode.line : XmlNode → Int
  | .mk _ _ l _ _ => l

def XmlNode.text : XmlNode → Option String
  | .mk _ _ _ t _ => t

def XmlNode.children : XmlNode → List XmlNode
  | .mk _ _ _ _ c => c

/-- `node.attrib.get(key)` / `key in node.attrib`. -/
def lookupAttr (a : List (String × String)) (k : String) : Option String :=
  (a.find? fun kv => kv.1 = k).map fun kv => kv.2

/-- A numeric value as parsed by Python's `float()`: kept as an exact,
unnormalized numerator/denominator pair (the denominator is the power of
ten given by the fractional digits), so that the embedding stays
kernel-computable. -/
structure PyFloat where
  num : Int
  den : Nat
deriving DecidableEq, Repr

/-- Value of a decimal digit. -/
def digitVal (c : Char) : Option Nat :=
  if '0' ≤ c ∧ c ≤ '9' then some (c.toNat - '0'.toNat) else none

/-- Consume leading digits: accumulated value, digit count, remainder. -/
def takeDigits (acc count : Nat) : List Char → Nat × Nat × List Char
  | [] => (acc, count, [])
  | c :: rest =>
    match digitVal c with
    | some d => takeDigits (acc * 10 + d) (count + 1) rest
    | none => (acc, count, c :: rest)

/-- Python's `float()` on the simple decimal literals the repository's
documents use: optional sign, integer digits, optional fraction.  Returns
`none` exactly when `float()` raises `ValueError`. -/
def pyFloatOfChars (cs : List Char) : Option PyFloat :=
  let sr : Int × List Char :=
    match cs with
    | '-' :: r => (-1, r)
    | '+' :: r => (1, r)
    | r => (1, r)
  let ipr := takeDigits 0 0 sr.2
  match ipr.2.2 with
  | [] => if ipr.2.1 = 0 then none else some ⟨sr.1 * ipr.1, 1⟩
  | '.' :: r2 =>
    let fpr := takeDigits 0 0 r2
    if fpr.2.2 = [] ∧ ipr.2.1 + fpr.2.1 ≠ 0 then
      some ⟨sr.1 * (ipr.1 * 10 ^ fpr.2.1 + fpr.1), 10 ^ fpr.2.1⟩
    else none
  | _ => none

def pyFloat (s : String) : Option PyFloat := pyFloatOfChars s.data

/-- Python's `int()` on simple integer literals. -/
def pyInt (s : String) : Option Int :=
  let sr : Int × List Char :=
    match s.data with
    | '-' :: r => (-1, r)
    | '+' :: r => (1, r)
    | r => (1, r)
  let ipr := takeDigits 0 0 sr.2
  if ipr.2.2 = [] ∧ ipr.2.1 ≠ 0 then some (sr.1 * ipr.1) else none

/-- Python's `str.split(" ")`: split on every single space, keeping empty
parts. -/
def splitSpace : List Char → List (List Char)
  | [] => [[]]
  | ' ' :: r => [] :: splitSpace r
  | c :: r =>
    match splitSpace r with
    | h :: t => (c :: h) :: t
    | [] => [[c]]

/-- The conversion errors raised below `_parse_xml_elements`:
`ValueError(f"Invalid value: {value}")` from `_convert_float3/4`, and the
messages of Python's own `float()`/`int()` failures (which embed the raw
offending string but no source position). -/
inductive ConvErr where
  | invalidValue (raw : String)
  | floatConv (raw : String)
  | intConv (raw : String)
deriving DecidableEq, Repr

def renderConvErr : ConvErr → String
  | .invalidValue raw => "Invalid value: " ++ raw
  | .floatConv raw => "could not convert string to float: '" ++ raw ++ "'"
  | .intConv raw => "invalid literal for int() with base 10: '" ++ raw ++ "'"

/-- The messages passed to `URDFParser._get_error_message`. -/
inductive PMsg where
  | text (s : String)
  | invalidAttr (attr : String) (e : ConvErr)
  | nameExists (kindWord : String) (n : String)
  | invalidJointType (t : String)
deriving DecidableEq, Repr

def renderPMsg : PMsg → String
  | .text s => s
  | .invalidAttr attr e => "Invalid " ++ attr ++ ": " ++ renderConvErr e
  | .nameExists kindWord n => kindWord ++ " name '" ++ n ++ "' already exists"
  | .invalidJointType t => "Invalid joint type: " ++ t

/-- A parse failure: either a structural error formatted by
`_get_error_message` — `f"{tag}: {message} (line: {line})"` — or a bare,
uncaught conversion error escaping from an unwrapped `float()`/`int()`
call.  (`URDFParser.parse` finally wraps either text in
`RuntimeError(f"Error parsing XML: {e}")`.) -/
inductive PErr where
  | structural (tag : String) (msg : PMsg) (line : Int)
  | bare (e : ConvErr)
  | fuelExhausted
deriving DecidableEq, Repr

/-- Whether the error text cites a source line: structural errors are
rendered with a `(line: n)` suffix, bare conversion errors are not. -/
def PErr.citesLine : PErr → Bool
  | .structural _ _ _ => true
  | _ => false

def renderPErr : PErr → String
  | .structural tag m line =>
      tag ++ ": " ++ renderPMsg m ++ " (line: " ++ toString line ++ ")"
  | .bare e => renderConvErr e
  | .fuelExhausted => "recursion limit exceeded"

/-- `_convert_float3`. -/
def convertFloat3 (value : String) : Except ConvErr (PyFloat × PyFloat × PyFloat) :=
  match splitSpace value.data with
  | [a, b, c] =>
    match pyFloatOfChars a with
    | none => .error (.floatConv (String.mk a))
    | some fa =>
      match pyFloatOfChars b with
      | none => .error (.floatConv (String.mk b))
      | some fb =>
        match pyFloatOfChars c with
        | none => .error (.floatConv (String.mk c))
        | some fc => .ok (fa, fb, fc)
  | _ => .error (.invalidValue value)

/-- `_convert_float4`. -/
def convertFloat4 (value : String) :
    Except ConvErr (PyFloat × PyFloat × PyFloat × PyFloat) :=
  match splitSpace value.data with
  | [a, b, c, d] =>
    match pyFloatOfChars a with
    | none => .error (.floatConv (String.mk a))
    | some fa =>
      match pyFloatOfChars b with
      | none => .error (.floatConv (String.mk b))
      | some fb =>
        match pyFloatOfChars c with
        | none => .error (.floatConv (String.mk c))
        | some fc =>
          match pyFloatOfChars d with
          | none => .error (.floatConv (String.mk d))
          | some fd => .ok (fa, fb, fc, fd)
  | _ => .error (.invalidValue value)

/-! ### Schema registry (`reserved_element_attribute_names.py`, `elements.py`) -/

/-- `reserved_element_names`. -/
def reservedElementNames : List String :=
  ["actuator", "axis", "box", "calibration", "camera", "child", "collision",
   "color", "cylinder", "dynamics", "flexJoint", "gap_joint", "gazebo",
   "geometry", "horizontal", "image", "inertia", "inertial", "joint",
   "leftActuator", "limit", "link", "mass", "material", "mechanicalReduction",
   "mesh", "mimic", "origin", "parent", "passive_joint", "ray",
   "rightActuator", "robot", "rollJoint", "safety_controller", "sensor",
   "sphere", "texture", "transmission", "use_simulated_gripper_joint",
   "verbose", "vertical", "visual"]

/-- `check_element_name`. -/
def checkElementName (elementName : String) : Bool :=
  reservedElementNames.contains elementName

/-- `reserved_element_attribute_names` (keys are the `element` strings of
the table, looked up by tag name, exactly as in the source — so e.g. a
`leftActuator` tag matches no entry). -/
def reservedAttrTable : List (String × List String) :=
  [("actuator_transmission", ["mechanicalReduction", "name"]),
   ("axis", ["xyz"]),
   ("box", ["size"]),
   ("calibration", ["reference_position", "rising", "falling"]),
   ("child", ["link"]),
   ("collision", ["name"]),
   ("color", ["rgba"]),
   ("cylinder", ["length", "radius"]),
   ("dynamics", ["damping", "friction"]),
   ("gap_joint_transmission",
    ["L0", "a", "b", "gear_ratio", "h", "mechanical_reduction", "name",
     "phi0", "r", "screw_reduction", "t0", "theta0"]),
   ("image", ["width", "height", "format", "hfov", "near", "far"]),
   ("inertia", ["ixx", "ixy", "ixz", "iyy", "iyz", "izz"]),
   ("joint", ["name", "type"]),
   ("LaserRay", ["samples", "resolution", "min_angle", "max_angle"]),
   ("limit", ["lower", "upper", "effort", "velocity"]),
   ("link", ["name"]),
   ("mass", ["value"]),
   ("material", ["name"]),
   ("mesh", ["filename", "scale"]),
   ("mimic", ["joint", "multiplier", "offset"]),
   ("origin", ["xyz", "rpy"]),
   ("parent", ["link"]),
   ("passive_joint_transmission", ["name"]),
   ("robot", ["name"]),
   ("safety_controller",
    ["soft_lower_limit", "soft_upper_limit", "k_position", "k_velocity"]),
   ("sensor", ["name", "update_rate", "version"]),
   ("sphere", ["radius"]),
   ("texture", ["filename"]),
   ("transmission", ["name", "type"]),
   ("verbose", ["value"])]

/-- `check_element_attribute_name`. -/
def checkElementAttributeName (elementName attributeName : String) : Bool :=
  match reservedAttrTable.find? fun p => p.1 = elementName with
  | some p => p.2.contains attributeName
  | none => false

/-- The entity types: one per `ElementBase` subclass in `elements.py`. -/
inductive EKind where
  | undefinedE
  | pose
  | color
  | verbose
  | nameE
  | mass
  | inertia
  | inertial
  | box
  | cylinder
  | sphere
  | mesh
  | geometry
  | texture
  | material
  | materialGlobal
  | visual
  | collision
  | link
  | parentE
  | childE
  | axis
  | calibration
  | dynamics
  | limit
  | safetyController
  | mimic
  | actuatorTransmission
  | gapJointTransmission
  | passiveJointTransmission
  | transmission
  | image
  | camera
  | laserRay
  | ray
  | sensor
  | joint
  | robot
deriving DecidableEq, Repr

/-- `available_tag_names` and `allowed_parent_tags` per element class, in
the class-definition order of `elements.py` (which is the
`ElementBase.__subclasses__()` iteration order of `_get_element_class`). -/
def elementClassTable : List (EKind × List String × List String) :=
  [(.undefinedE, [], []),
   (.pose, ["origin"], ["inertial", "visual", "collision", "joint", "sensor"]),
   (.color, ["color"], ["material"]),
   (.verbose, ["verbose"], ["collision"]),
   (.nameE, ["actuator", "joint"], ["transmission"]),
   (.mass, ["mass"], ["inertial"]),
   (.inertia, ["inertia"], ["inertial"]),
   (.inertial, ["inertial"], ["link"]),
   (.box, ["box"], ["geometry"]),
   (.cylinder, ["cylinder"], ["geometry"]),
   (.sphere, ["sphere"], ["geometry"]),
   (.mesh, ["mesh"], ["geometry"]),
   (.geometry, ["geometry"], ["visual", "collision"]),
   (.texture, ["texture"], ["material"]),
   (.material, ["material"], ["visual"]),
   (.materialGlobal, ["material"], ["robot"]),
   (.visual, ["visual"], ["link"]),
   (.collision, ["collision"], ["link"]),
   (.link, ["link"], ["robot"]),
   (.parentE, ["parent"], ["joint", "sensor"]),
   (.childE, ["child"], ["joint"]),
   (.axis, ["axis"], ["joint"]),
   (.calibration, ["calibration"], ["joint"]),
   (.dynamics, ["dynamics"], ["joint"]),
   (.limit, ["limit"], ["joint"]),
   (.safetyController, ["safety_controller"], ["joint"]),
   (.mimic, ["mimic"], ["joint"]),
   (.actuatorTransmission,
    ["leftActuator", "rightActuator", "flexJoint", "rollJoint"], ["transmission"]),
   (.gapJointTransmission, ["gap_joint"], ["transmission"]),
   (.passiveJointTransmission, ["passive_joint"], ["transmission"]),
   (.transmission, ["transmission"], ["robot"]),
   (.image, ["image"], ["robot"]),
   (.camera, ["camera"], ["sensor"]),
   (.laserRay, ["horizontal", "vertical"], ["ray"]),
   (.ray, ["ray"], ["sensor"]),
   (.sensor, ["sensor"], ["robot"]),
   (.joint, ["joint"], ["robot"]),
   (.robot, ["robot"], [])]

/-- `URDFParser._get_element_class`: the root special case, then the
first class whose tag list contains the tag and whose allowed parents
contain the parent tag (`None in [...]` is false in Python, hence
`none ↦ false`). -/
def resolveElementClass (tagName : String) (prevElementTag : Option String) :
    Option EKind :=
  if tagName = "robot" ∧ prevElementTag = none then some .robot
  else
    (elementClassTable.find? fun row =>
      row.2.1.contains tagName &&
        (match prevElementTag with
         | some p => row.2.2.contains p
         | none => false)).map fun row => row.1

/-- `ElementJoint.available_joint_types`.
Modelled from the spec: the class attribute is absent from
`src/.../elements.py`; §3 gives the joint kinds
fixed | revolute | continuous | prismatic | floating | planar. -/
def availableJointTypes : List String :=
  ["fixed", "revolute", "continuous", "prismatic", "floating", "planar"]

/-- `ElementGeometry.available_geometry_types`.
Modelled from the spec: the class attribute is absent from
`src/.../elements.py`; §3 gives the geometry variants
Box | Sphere | Cylinder | Mesh. -/
def availableGeometryTypes : List String := ["box", "sphere", "cylinder", "mesh"]

/-- The classes whose instances require a `name` attribute (parser lines
216-227).  The parser's list names `ElementTransmissionActuator` and
`ElementTransmissionJoint`, classes absent from `src/.../elements.py`;
under this registry the transmission's actuator/joint elements resolve to
the `ElementName` class (`nameE`), which therefore stands in for them. -/
def nameRequiredKind (k : EKind) : Bool :=
  match k with
  | .robot | .materialGlobal | .link | .joint | .sensor | .transmission | .nameE => true
  | _ => false

/-! ### The typed entity model (`elements.py` fields populated by the parser) -/

/-- The scalar data of one parsed element: its entity type, tag, structural
path, source line, and every typed attribute `_parse_xml_elements` can
populate, plus the unrecognized-attribute map. -/
structure EData where
  kind : EKind
  tag : String
  path : String
  line : Int
  name : Option String := none
  jtype : Option String := none
  version : Option String := none
  sizeA : Option (PyFloat × PyFloat × PyFloat) := none
  xyzA : Option (PyFloat × PyFloat × PyFloat) := none
  rpyA : Option (PyFloat × PyFloat × PyFloat) := none
  scaleA : Option (PyFloat × PyFloat × PyFloat) := none
  radiusA : Option PyFloat := none
  lengthA : Option PyFloat := none
  massA : Option PyFloat := none
  rgbaA : Option (PyFloat × PyFloat × PyFloat × PyFloat) := none
  filenameA : Option String := none
  softLowerA : Option PyFloat := none
  softUpperA : Option PyFloat := none
  kPositionA : Option PyFloat := none
  kVelocityA : Option PyFloat := none
  ixxA : Option PyFloat := none
  iyyA : Option PyFloat := none
  izzA : Option PyFloat := none
  ixyA : Option PyFloat := none
  ixzA : Option PyFloat := none
  iyzA : Option PyFloat := none
  mimicJointA : Option String := none
  multiplierA : Option PyFloat := none
  offsetA : Option PyFloat := none
  lowerA : Option PyFloat := none
  upperA : Option PyFloat := none
  effortA : Option PyFloat := none
  velocityA : Option PyFloat := none
  refPosA : Option PyFloat := none
  risingA : Option PyFloat := none
  fallingA : Option PyFloat := none
  dampingA : Option PyFloat := none
  frictionA : Option PyFloat := none
  linkA : Option String := none
  valueA : Option String := none
  widthA : Option Int := none
  heightA : Option Int := none
  formatA : Option String := none
  hfovA : Option PyFloat := none
  nearA : Option PyFloat := none
  farA : Option PyFloat := none
  samplesA : Option Int := none
  resolutionA : Option Int := none
  minAngleA : Option PyFloat := none
  maxAngleA : Option PyFloat := none
  updateRateA : Option PyFloat := none
  undefinedAttributes : List (String × String) := []
deriving DecidableEq, Repr

/-- A parsed element: scalar data, the captured undefined child elements,
the robot's four ordered collections, and the element-valued attribute
slots (Python instance attributes such as `visual`, `origin`, …,
represented as a name-keyed list in `__init__` declaration order). -/
inductive Element where
  | mk (d : EData) (undefinedElements : List Element)
      (materials links joints transmissions : List Element)
      (slots : List (String × Option Element))

def Element.data : Element → EData
  | .mk d _ _ _ _ _ _ => d

def Element.undefEls : Element → List Element
  | .mk _ u _ _ _ _ _ => u

def Element.mats : Element → List Element
  | .mk _ _ m _ _ _ _ => m

def Element.links : Element → List Element
  | .mk _ _ _ l _ _ _ => l

def Element.joints : Element → List Element
  | .mk _ _ _ _ j _ _ => j

def Element.trans : Element → List Element
  | .mk _ _ _ _ _ t _ => t

def Element.slots : Element → List (String × Option Element)
  | .mk _ _ _ _ _ _ s => s

/-- The element-valued instance attributes each class declares in
`__init__` (the order is the `__dict__` iteration order used by
`_get_undefined_elements_nested`).  `transmission.type` starts as a string
field but is overwritten with an element by the attach step, so it
participates in the scan. -/
def declaredSlots : EKind → List String
  | .inertial => ["origin", "mass", "inertia"]
  | .geometry => ["geometry"]
  | .material => ["color", "texture"]
  | .materialGlobal => ["color", "texture"]
  | .visual => ["origin", "geometry", "material"]
  | .collision => ["origin", "geometry", "verbose"]
  | .link => ["inertial", "visual", "collision"]
  | .transmission => ["type", "actuator", "joint"]
  | .camera => ["image"]
  | .ray => ["horizontal", "vertical"]
  | .sensor => ["origin", "parent", "camera_ray"]
  | .joint => ["origin", "parent", "child", "axis", "calibration", "dynamics",
               "limit", "safety_controller", "mimic"]
  | _ => []

def initSlots (k : EKind) : List (String × Option Element) :=
  (declaredSlots k).map fun n => (n, none)

def Element.setSlot (e : Element) (n : String) (v : Element) : Element :=
  match e with
  | .mk d u m l j t s =>
    .mk d u m l j t (s.map fun p => if p.1 = n then (p.1, some v) else p)

def Element.appendUndef (e : Element) (u0 : Element) : Element :=
  match e with
  | .mk d u m l j t s => .mk d (u ++ [u0]) m l j t s

def Element.appendMaterial (e : Element) (x : Element) : Element :=
  match e with
  | .mk d u m l j t s => .mk d u (m ++ [x]) l j t s

def Element.appendLink (e : Element) (x : Element) : Element :=
  match e with
  | .mk d u m l j t s => .mk d u m (l ++ [x]) j t s

def Element.appendJoint (e : Element) (x : Element) : Element :=
  match e with
  | .mk d u m l j t s => .mk d u m l (j ++ [x]) t s

def Element.appendTrans (e : Element) (x : Element) : Element :=
  match e with
  | .mk d u m l j t s => .mk d u m l j (t ++ [x]) s

def Element.withUndefAttrs (e : Element) (ua : List (String × String)) : Element :=
  match e with
  | .mk d u m l j t s => .mk { d with undefinedAttributes := ua } u m l j t s

/-! ### The recursive descent (`URDFParser._parse_xml_elements`) -/

/-- A wrapped 3-float attribute conversion (parser lines 238-252, 286-291,
363-368): failure raises `_get_error_message(f"Invalid {attr}: {e}", node)`. -/
def wrapAttr3 (tag attrName : String) (line : Int) (v : String) :
    Except PErr (PyFloat × PyFloat × PyFloat) :=
  (convertFloat3 v).mapError fun e => .structural tag (.invalidAttr attrName e) line

/-- A wrapped 4-float attribute conversion (rgba, lines 271-276). -/
def wrapAttr4 (tag attrName : String) (line : Int) (v : String) :
    Except PErr (PyFloat × PyFloat × PyFloat × PyFloat) :=
  (convertFloat4 v).mapError fun e => .structural tag (.invalidAttr attrName e) line

/-- A wrapped scalar `float()` conversion (radius/length, lines 253-262). -/
def wrapAttrF (tag attrName : String) (line : Int) (v : String) :
    Except PErr PyFloat :=
  match pyFloat v with
  | some f => .ok f
  | none => .error (.structural tag (.invalidAttr attrName (.floatConv v)) line)

/-- An unwrapped `float(node.attrib[...])`: on failure the raw `ValueError`
of `float()` propagates, carrying no tag or line. -/
def bareFloatA (v : String) : Except PErr PyFloat :=
  match pyFloat v with
  | some f => .ok f
  | none => .error (.bare (.floatConv v))

/-- An unwrapped `int(node.attrib[...])`. -/
def bareIntA (v : String) : Except PErr Int :=
  match pyInt v with
  | some i => .ok i
  | none => .error (.bare (.intConv v))

/-- The attribute conversions applied to every element regardless of type
(parser lines 238-265): `size`, `xyz`, `rpy` (wrapped 3-float), `radius`,
`length` (wrapped float), `version` (string copy). -/
def convertCommonAttrs (tag : String) (line : Int)
    (attrib : List (String × String)) (d : EData) : Except PErr EData :=
  (match lookupAttr attrib "size" with
    | some v => (wrapAttr3 tag "size" line v).map fun t => { d with sizeA := some t }
    | none => pure d) >>= fun d =>
  (match lookupAttr attrib "xyz" with
    | some v => (wrapAttr3 tag "xyz" line v).map fun t => { d with xyzA := some t }
    | none => pure d) >>= fun d =>
  (match lookupAttr attrib "rpy" with
    | some v => (wrapAttr3 tag "rpy" line v).map fun t => { d with rpyA := some t }
    | none => pure d) >>= fun d =>
  (match lookupAttr attrib "radius" with
    | some v => (wrapAttrF tag "radius" line v).map fun t => { d with radiusA := some t }
    | none => pure d) >>= fun d =>
  (match lookupAttr attrib "length" with
    | some v => (wrapAttrF tag "length" line v).map fun t => { d with lengthA := some t }
    | none => pure d) >>= fun d =>
  pure (match lookupAttr attrib "version" with
    | some v => { d with version := some v }
    | none => d)

/-- Optional unwrapped float attribute: sets the field when present. -/
def optBareFloat (attrib : List (String × String)) (k : String)
    (set : EData → PyFloat → EData) (d : EData) : Except PErr EData :=
  match lookupAttr attrib k with
  | some v => do
      let f ← bareFloatA v
      pure (set d f)
  | none => pure d

/-- Optional unwrapped int attribute. -/
def optBareInt (attrib : List (String × String)) (k : String)
    (set : EData → Int → EData) (d : EData) : Except PErr EData :=
  match lookupAttr attrib k with
  | some v => do
      let i ← bareIntA v
      pure (set d i)
  | none => pure d

/-- The per-class attribute handling of `_parse_xml_elements` (the
`isinstance` chain, lines 267-414).  The three transmission text branches
(`ElementTransmissionHardwareInterface` etc., lines 374-384) refer to
classes that are absent from `src/.../elements.py`, so no element resolves
to them and they are unreachable. -/
def convertKindAttrs (k : EKind) (tag : String) (line : Int)
    (attrib : List (String × String)) (d : EData) : Except PErr EData := do
  match k with
  | .undefinedE => pure { d with undefinedAttributes := attrib }
  | .color =>
    match lookupAttr attrib "rgba" with
    | some v => do
        let t ← wrapAttr4 tag "rgba" line v
        pure { d with rgbaA := some t }
    | none => pure d
  | .texture =>
    pure (match lookupAttr attrib "filename" with
      | some v => { d with filenameA := some v }
      | none => d)
  | .mass => optBareFloat attrib "mass" (fun d f => { d with massA := some f }) d
  | .mesh => do
    let d ← match lookupAttr attrib "scale" with
      | some v => do
          let t ← wrapAttr3 tag "scale" line v
          pure { d with scaleA := some t }
      | none => pure d
    match lookupAttr attrib "filename" with
    | some v => pure { d with filenameA := some v }
    | none => throw (.structural tag (.text "Filename is required") line)
  | .safetyController => do
    let d ← optBareFloat attrib "soft_lower_limit"
      (fun d f => { d with softLowerA := some f }) d
    let d ← optBareFloat attrib "soft_upper_limit"
      (fun d f => { d with softUpperA := some f }) d
    let d ← optBareFloat attrib "k_position"
      (fun d f => { d with kPositionA := some f }) d
    match lookupAttr attrib "k_velocity" with
    | some v => do
        let f ← bareFloatA v
        pure { d with kVelocityA := some f }
    | none => throw (.structural tag (.text "k_velocity is required") line)
  | .inertia => do
    let d ← optBareFloat attrib "ixx" (fun d f => { d with ixxA := some f }) d
    let d ← optBareFloat attrib "iyy" (fun d f => { d with iyyA := some f }) d
    let d ← optBareFloat attrib "izz" (fun d f => { d with izzA := some f }) d
    let d ← optBareFloat attrib "ixy" (fun d f => { d with ixyA := some f }) d
    let d ← optBareFloat attrib "ixz" (fun d f => { d with ixzA := some f }) d
    optBareFloat attrib "iyz" (fun d f => { d with iyzA := some f }) d
  | .mimic => do
    let d ← match lookupAttr attrib "joint" with
      | some v => pure { d with mimicJointA := some v }
      | none => throw (.structural tag (.text "Joint is required") line)
    let d ← optBareFloat attrib "multiplier"
      (fun d f => { d with multiplierA := some f }) d
    optBareFloat attrib "offset" (fun d f => { d with offsetA := some f }) d
  | .limit => do
    let d ← optBareFloat attrib "lower" (fun d f => { d with lowerA := some f }) d
    let d ← optBareFloat attrib "upper" (fun d f => { d with upperA := some f }) d
    let d ← optBareFloat attrib "effort" (fun d f => { d with effortA := some f }) d
    optBareFloat attrib "velocity" (fun d f => { d with velocityA := some f }) d
  | .calibration => do
    let d ← optBareFloat attrib "reference_position"
      (fun d f => { d with refPosA := some f }) d
    let d ← optBareFloat attrib "rising" (fun d f => { d with risingA := some f }) d
    optBareFloat attrib "falling" (fun d f => { d with fallingA := some f }) d
  | .dynamics => do
    let d ← optBareFloat attrib "damping" (fun d f => { d with dampingA := some f }) d
    optBareFloat attrib "friction" (fun d f => { d with frictionA := some f }) d
  | .parentE =>
    (match lookupAttr attrib "link" with
     | some v => pure { d with linkA := some v }
     | none => throw (.structural tag (.text "Link is required") line))
  | .childE =>
    (match lookupAttr attrib "link" with
     | some v => pure { d with linkA := some v }
     | none => throw (.structural tag (.text "Link is required") line))
  | .axis =>
    match lookupAttr attrib "xyz" with
    | some v => do
        let t ← wrapAttr3 tag "xyz" line v
        pure { d with xyzA := some t }
    | none => pure d
  | .verbose =>
    pure (match lookupAttr attrib "value" with
      | some v => { d with valueA := some v }
      | none => d)
  | .image => do
    let d ← optBareInt attrib "width" (fun d i => { d with widthA := some i }) d
    let d ← optBareInt attrib "height" (fun d i => { d with heightA := some i }) d
    let d := match lookupAttr attrib "format" with
      | some v => { d with formatA := some v }
      | none => d
    let d ← optBareFloat attrib "hfov" (fun d f => { d with hfovA := some f }) d
    let d ← optBareFloat attrib "near" (fun d f => { d with nearA := some f }) d
    optBareFloat attrib "far" (fun d f => { d with farA := some f }) d
  | .laserRay => do
    let d ← optBareInt attrib "samples" (fun d i => { d with samplesA := some i }) d
    let d ← optBareInt attrib "resolution"
      (fun d i => { d with resolutionA := some i }) d
    let d ← optBareFloat attrib "min_angle"
      (fun d f => { d with minAngleA := some f }) d
    optBareFloat attrib "max_angle" (fun d f => { d with maxAngleA := some f }) d
  | .sensor => do
    let d ← optBareFloat attrib "update_rate"
      (fun d f => { d with updateRateA := some f }) d
    pure (match lookupAttr attrib "version" with
      | some v => { d with version := some v }
      | none => d)
  | _ => pure d

/-- The truthiness-based attribute fetch `node.attrib.get(key)` used for
`name` and `type`: an empty string is falsy in Python and counts as
absent. -/
def truthyAttr (attrib : List (String × String)) (k : String) : Option String :=
  (lookupAttr attrib k).bind fun s => if s = "" then none else some s

/-- The association step of `_parse_xml_elements` (lines 421-529): writes
the completed child element into its parent's collection or attribute
slot, checking the sibling-name uniqueness constraints incrementally for
robot-level link/material/joint/transmission children.  `tag` and `line`
are those of the child's XML node (the error cites them).  The branches
for `ElementTransmissionActuator`/`ElementTransmissionJoint` parents
(lines 503-511) refer to classes absent from `src/.../elements.py` and are
unreachable. -/
def attachByKind (prev : Element) (tag : String) (line : Int) (e : Element) :
    Except PErr Element :=
  match prev.data.kind with
  | .robot =>
    if tag = "link" then
      if (prev.links.map fun l => l.data.name).contains e.data.name then
        .error (.structural tag (.nameExists "Link" (e.data.name.getD "")) line)
      else .ok (prev.appendLink e)
    else if tag = "material" ∧ e.data.kind = .materialGlobal then
      if (prev.mats.map fun m => m.data.name).contains e.data.name then
        .error (.structural tag (.nameExists "Material" (e.data.name.getD "")) line)
      else .ok (prev.appendMaterial e)
    else if tag = "joint" then
      if (prev.joints.map fun j => j.data.name).contains e.data.name then
        .error (.structural tag (.nameExists "Joint" (e.data.name.getD "")) line)
      else .ok (prev.appendJoint e)
    else if tag = "transmission" then
      if (prev.trans.map fun t => t.data.name).contains e.data.name then
        .error (.structural tag (.nameExists "Transmission" (e.data.name.getD "")) line)
      else .ok (prev.appendTrans e)
    else .ok prev
  | .materialGlobal =>
    if tag = "color" then .ok (prev.setSlot "color" e)
    else if tag = "texture" then .ok (prev.setSlot "texture" e)
    else .ok prev
  | .material =>
    if tag = "color" then .ok (prev.setSlot "color" e)
    else if tag = "texture" then .ok (prev.setSlot "texture" e)
    else .ok prev
  | .link =>
    if tag = "visual" then .ok (prev.setSlot "visual" e)
    else if tag = "collision" then .ok (prev.setSlot "collision" e)
    else if tag = "inertial" then .ok (prev.setSlot "inertial" e)
    else .ok prev
  | .visual =>
    if tag = "geometry" then .ok (prev.setSlot "geometry" e)
    else if tag = "origin" then .ok (prev.setSlot "origin" e)
    else if tag = "material" then .ok (prev.setSlot "material" e)
    else .ok prev
  | .collision =>
    if tag = "geometry" then .ok (prev.setSlot "geometry" e)
    else if tag = "origin" then .ok (prev.setSlot "origin" e)
    else if tag = "verbose" then .ok (prev.setSlot "verbose" e)
    else .ok prev
  | .geometry =>
    if tag = "box" ∨ tag = "sphere" ∨ tag = "cylinder" ∨ tag = "mesh" then
      .ok (prev.setSlot "geometry" e)
    else .ok prev
  | .inertial =>
    if tag = "origin" then .ok (prev.setSlot "origin" e)
    else if tag = "inertia" then .ok (prev.setSlot "inertia" e)
    else if tag = "mass" then .ok (prev.setSlot "mass" e)
    else .ok prev
  | .joint =>
    if tag = "origin" then .ok (prev.setSlot "origin" e)
    else if tag = "limit" then .ok (prev.setSlot "limit" e)
    else if tag = "parent" then .ok (prev.setSlot "parent" e)
    else if tag = "child" then .ok (prev.setSlot "child" e)
    else if tag = "axis" then .ok (prev.setSlot "axis" e)
    else if tag = "dynamics" then .ok (prev.setSlot "dynamics" e)
    else if tag = "calibration" then .ok (prev.setSlot "calibration" e)
    else if tag = "safety_controller" then .ok (prev.setSlot "safety_controller" e)
    else if tag = "mimic" then .ok (prev.setSlot "mimic" e)
    else .ok prev
  | .transmission =>
    if tag = "actuator" then .ok (prev.setSlot "actuator" e)
    else if tag = "joint" then .ok (prev.setSlot "joint" e)
    else if tag = "type" then .ok (prev.setSlot "type" e)
    else .ok prev
  | .camera =>
    if tag = "image" then .ok (prev.setSlot "image" e)
    else .ok prev
  | .ray =>
    if tag = "horizontal" then .ok (prev.setSlot "horizontal" e)
    else if tag = "vertical" then .ok (prev.setSlot "vertical" e)
    else .ok prev
  | .sensor =>
    if tag = "camera" ∨ tag = "ray" then .ok (prev.setSlot "camera_ray" e)
    else if tag = "origin" then .ok (prev.setSlot "origin" e)
    else if tag = "parent" then .ok (prev.setSlot "parent" e)
    else .ok prev
  | _ => .ok prev

/-- The full association step: kind-specific attach, then the undefined
containment (lines 531-533): a child is recorded in its parent's
`undefined_elements` when the parent is unrecognized or the child is. -/
def attachElement (prev : Element) (tag : String) (line : Int) (e : Element) :
    Except PErr Element := do
  let prev1 ← attachByKind prev tag line e
  if prev.data.kind = .undefinedE ∨ e.data.kind = .undefinedE then
    pure (prev1.appendUndef e)
  else pure prev1

/-- The parent context handed to a recursive `_parse_xml_elements` call:
the parent element's entity type, tag and path. -/
structure PrevCtx where
  kind : EKind
  tag : String
  path : String
deriving DecidableEq, Repr

/-- One step of the child loop: parse the child with the parent's context,
then run its association step.  `rec` is the recursive call of
`_parse_xml_elements`; `ctx` is the parent's (type, tag, path), which the
association step never modifies, so it is the same for every sibling. -/
def parseStep (rec : XmlNode → Option PrevCtx → Except PErr Element)
    (ctx : PrevCtx) (prevElem : Element) (c : XmlNode) : Except PErr Element := do
  let childElem ← rec c (some ctx)
  attachElement prevElem c.tag c.line childElem

/-- The child loop `for child in node: self._parse_xml_elements(child,
element)` (lines 417-418 together with each child's association step). -/
def parseSiblings (rec : XmlNode → Option PrevCtx → Except PErr Element)
    (prevElem : Element) (l : List XmlNode) : Except PErr Element :=
  l.foldlM
    (parseStep rec ⟨prevElem.data.kind, prevElem.data.tag, prevElem.data.path⟩)
    prevElem

/-- The body of `URDFParser._parse_xml_elements`, abstracted over its own
recursive call: resolve the node against the schema registry (with
recursive undefined containment), enforce required attributes, convert
typed attributes, recurse into children (each child is attached to this
element by `attachElement`), and capture unrecognized attributes of
recognized elements. -/
def parseBody (rec : XmlNode → Option PrevCtx → Except PErr Element)
    (node : XmlNode) (prev : Option PrevCtx) : Except PErr Element :=
  match node with
  | .mk tag attrib line _text children => do
    let currentPath :=
      match prev with
      | some p => p.path ++ "/" ++ tag
      | none => "/" ++ tag
    -- invalid geometry type check (line 189)
    if (match prev with | some p => p.kind == EKind.geometry | none => false) &&
        !availableGeometryTypes.contains tag then
      throw (.structural tag (.text "Invalid geometry type") line)
    -- registry resolution with recursive undefined containment (lines 195-206)
    let kind ←
      if (match prev with | some p => p.kind == EKind.undefinedE | none => false) ||
          !checkElementName tag then
        pure EKind.undefinedE
      else
        match resolveElementClass tag (prev.map fun p => p.tag) with
        | some k => pure k
        | none =>
          throw (.structural tag
            (.text "Invalid element type. This uses a reserved tag, but in the wrong place")
            line)
    let d0 : EData := { kind := kind, tag := tag, path := currentPath, line := line }
    -- name attribute (truthy) and the name-required check (lines 212-227)
    let nameVal := truthyAttr attrib "name"
    if nameVal.isNone ∧ nameRequiredKind kind then
      throw (.structural tag (.text "name is required") line)
    let d1 := { d0 with name := nameVal }
    -- joint type attribute (lines 229-235)
    let d2 ←
      if kind = EKind.joint then
        match truthyAttr attrib "type" with
        | some t =>
          if ¬availableJointTypes.contains t then
            throw (.structural tag (.invalidJointType t) line)
          else pure { d1 with jtype := some t }
        | none => throw (.structural tag (.text "Type is required") line)
      else pure d1
    -- common typed attributes (lines 238-265)
    let d3 ← convertCommonAttrs tag line attrib d2
    -- per-class typed attributes (lines 267-414)
    let d4 ← convertKindAttrs kind tag line attrib d3
    -- recurse into children (lines 417-418); each child attaches itself here
    let e0 : Element := .mk d4 [] [] [] [] [] (initSlots kind)
    let e1 ← parseSiblings rec e0 children
    -- unrecognized attributes of recognized elements (lines 534-538)
    if kind = EKind.undefinedE then pure e1
    else pure (e1.withUndefAttrs
      (attrib.filter fun kv => !checkElementAttributeName tag kv.1))

/-- `URDFParser._parse_xml_elements`, fuel-indexed so that the recursion
stays kernel-computable (`PErr.fuelExhausted` is an artifact of the
encoding: `parseURDF` supplies fuel exceeding the tree size, so it never
arises for an actual document). -/
def parseNodeF : Nat → XmlNode → Option PrevCtx → Except PErr Element
  | 0, _, _ => .error .fuelExhausted
  | fuel + 1, node, prev => parseBody (parseNodeF fuel) node prev

mutual
/-- Number of nodes of an XML tree (used as recursion fuel). -/
def xmlSize : XmlNode → Nat
  | .mk _ _ _ _ children => 1 + xmlSizeList children

def xmlSizeList : List XmlNode → Nat
  | [] => 0
  | c :: rest => xmlSize c + xmlSizeList rest
end

/-- The `_parse_xml_elements` pass of `URDFParser.parse` (the subsequent
`_validate`/`_store_meshes` passes and the `RuntimeError` re-wrap are not
needed by the claims). -/
def parseURDF (root : XmlNode) : Except PErr Element :=
  parseNodeF (xmlSize root) root none

/-! ### Undefined-content collection (`get_undefined_elements`) -/

/-- One collected record of undefined content.
Modelled from the spec: the `UndefinedData` class is not under `src/`
(only its constructor calls are); §3 describes it as tag, structural path,
line number, and a flag distinguishing a wholly unrecognized element from
a recognized element carrying extra unrecognized attributes.  The path and
line are read from the element at capture time. -/
structure UndefinedData where
  tag : String
  path : String
  line : Int
  isElement : Bool
deriving DecidableEq, Repr

def UndefinedData.ofElement (e : Element) (flag : Bool) : UndefinedData :=
  ⟨e.data.tag, e.data.path, e.data.line, flag⟩

/-- The duplicate scan of `_get_undefined_elements_nested`: is a record
with this (path, line) pair already collected? -/
def hasKey (acc : List UndefinedData) (path : String) (line : Int) : Bool :=
  acc.any fun u => u.path == path && u.line == line

/-- One step of the undefined-children loop of
`_get_undefined_elements_nested`: an undefined child whose (path, line)
pair is already collected is skipped entirely (it is not recursed into);
otherwise it is recorded and then recursed into. -/
def collectStepUndef (rec : Element → List UndefinedData → List UndefinedData)
    (acc : List UndefinedData) (u : Element) : List UndefinedData :=
  if hasKey acc u.data.path u.data.line then acc
  else rec u (acc ++ [UndefinedData.ofElement u true])

/-- The body of `URDFParser._get_undefined_elements_nested`, abstracted
over its own recursive call: collect the element's own undefined children,
then the element itself when it carries unrecognized attributes (again
deduplicated by (path, line)), then recurse — for the robot into its four
collections in source order (materials, links, joints, transmissions), for
any other element into its element-valued instance attributes in
`__dict__` order. -/
def collectBody (rec : Element → List UndefinedData → List UndefinedData)
    (e : Element) (acc : List UndefinedData) : List UndefinedData :=
  match e with
  | .mk d u m l j t s =>
    let acc1 := u.foldl (collectStepUndef rec) acc
    let acc2 :=
      if d.undefinedAttributes ≠ [] ∧ hasKey acc1 d.path d.line = false then
        acc1 ++ [⟨d.tag, d.path, d.line, false⟩]
      else acc1
    if d.kind = EKind.robot then
      t.foldl (fun a x => rec x a) (j.foldl (fun a x => rec x a)
        (l.foldl (fun a x => rec x a) (m.foldl (fun a x => rec x a) acc2)))
    else
      s.foldl (fun a p => match p.2 with | some x => rec x a | none => a) acc2

/-- `_get_undefined_elements_nested`, fuel-indexed (the fuel never runs
out for the fuel chosen by `getUndefinedElements`; at fuel 0 the
accumulator is returned unchanged). -/
def collectNestedF : Nat → Element → List UndefinedData → List UndefinedData
  | 0, _, acc => acc
  | n + 1, e, acc => collectBody (collectNestedF n) e acc

mutual
/-- Number of elements of a parsed element tree (used as recursion fuel). -/
def elemSize : Element → Nat
  | .mk _ u m l j t s =>
    1 + elemSizeList u + elemSizeList m + elemSizeList l + elemSizeList j +
      elemSizeList t + elemSizeSlots s

def elemSizeList : List Element → Nat
  | [] => 0
  | e :: rest => elemSize e + elemSizeList rest

def elemSizeSlots : List (String × Option Element) → Nat
  | [] => 0
  | (_, some e) :: rest => elemSize e + elemSizeSlots rest
  | (_, none) :: rest => 1 + elemSizeSlots rest
end

/-- `URDFParser.get_undefined_elements`. -/
def getUndefinedElements (root : Element) : List UndefinedData :=
  collectNestedF (elemSize root) root []

/-- Equality on `Except` results is decidable when both components are. -/
instance {e a : Type} [DecidableEq e] [DecidableEq a] : DecidableEq (Except e a) :=
  fun x y =>
  match x, y with
  | .error u, .error v => decidable_of_iff (u = v) (by simp)
  | .error _, .ok _ => isFalse (by simp)
  | .ok _, .error _ => isFalse (by simp)
  | .ok u, .ok v => decidable_of_iff (u = v) (by simp)

/-- Observation of the error surfaced by `URDFParser.parse` (wrapped there
into `RuntimeError(f"Error parsing XML: {e}")`). -/
def parseErrOf : Except PErr Element → Option PErr
  | .error e => some e
  | .ok _ => none

/-! ### Theorems about typed-attribute conversion errors (C9) -/

/-- `sub` occurs verbatim inside `s`. -/
def StrContains (s sub : String) : Prop := ∃ p q, s = p ++ sub ++ q

theorem strContains_of_eq {s p sub q : String} (h : s = p ++ sub ++ q) :
    StrContains s sub := ⟨p, q, h⟩

theorem strContains_self (s : String) : StrContains s s :=
  ⟨"", "", by rw [String.empty_append, String.append_empty]⟩

theorem strContains_appendLeft {s sub : String} (t : String)
    (h : StrContains s sub) : StrContains (s ++ t) sub := by
  obtain ⟨p, q, rfl⟩ := h
  exact ⟨p, q ++ t, by simp only [String.append_assoc]⟩

theorem strContains_appendRight {t sub : String} (s : String)
    (h : StrContains t sub) : StrContains (s ++ t) sub := by
  obtain ⟨p, q, rfl⟩ := h
  exact ⟨s ++ p, q, by simp only [String.append_assoc]⟩

/-- C9 (amended): for the guarded typed-attribute conversions (the
space-separated float vectors `size`/`xyz`/`rpy` and the wrapped scalars,
here shown for `size` and `xyz`), a conversion failure aborts parsing with
a structural error that names the attribute, embeds the raw offending
string, and cites the element's source line.  This does NOT hold uniformly
for all typed attributes: the mass element's scalar is converted by a bare
`float()` call whose failure carries no source line (see the
counterexample). -/
theorem typed_attr_conversion_error (tag : String) (line : Int)
    (attrib : List (String × String)) (d : EData) (s : String) (ce : ConvErr) :
    (lookupAttr attrib "size" = some s → convertFloat3 s = .error ce →
      convertCommonAttrs tag line attrib d =
        .error (.structural tag (.invalidAttr "size" ce) line)) ∧
    (lookupAttr attrib "size" = none → lookupAttr attrib "xyz" = some s →
      convertFloat3 s = .error ce →
      convertCommonAttrs tag line attrib d =
        .error (.structural tag (.invalidAttr "xyz" ce) line)) ∧
    (∀ a raw : String,
      StrContains (renderPErr (.structural tag (.invalidAttr a (.invalidValue raw)) line)) raw ∧
      StrContains (renderPErr (.structural tag (.invalidAttr a (.invalidValue raw)) line))
        (" (line: " ++ toString line ++ ")")) ∧
    (∀ a raw : String,
      StrContains (renderPErr (.structural tag (.invalidAttr a (.floatConv raw)) line)) raw ∧
      StrContains (renderPErr (.structural tag (.invalidAttr a (.floatConv raw)) line))
        (" (line: " ++ toString line ++ ")")) := by
  refine ⟨?_, ?_, ?_, ?_⟩
  · intro h1 h2
    simp [convertCommonAttrs, h1, h2, wrapAttr3, Except.mapError, Except.map,
      Bind.bind, Except.bind]
  · intro h0 h1 h2
    simp [convertCommonAttrs, h0, h1, h2, wrapAttr3, Except.mapError, Except.map,
      Bind.bind, Except.bind, Pure.pure, Except.pure]
  · intro a raw
    refine ⟨strContains_of_eq (p := tag ++ ": " ++ "Invalid " ++ a ++ ": " ++ "Invalid value: ")
        (q := " (line: " ++ toString line ++ ")") ?_,
      strContains_of_eq (p := tag ++ ": " ++ "Invalid " ++ a ++ ": " ++ ("Invalid value: " ++ raw))
        (q := "") ?_⟩
    · show tag ++ ": " ++ ("Invalid " ++ a ++ ": " ++ ("Invalid value: " ++ raw)) ++
        " (line: " ++ toString line ++ ")" = _
      simp only [String.append_assoc]
    · show tag ++ ": " ++ ("Invalid " ++ a ++ ": " ++ ("Invalid value: " ++ raw)) ++
        " (line: " ++ toString line ++ ")" = _
      simp only [String.append_assoc, String.append_empty]
  · intro a raw
    refine ⟨strContains_of_eq
        (p := tag ++ ": " ++ "Invalid " ++ a ++ ": " ++ "could not convert string to float: '")
        (q := "'" ++ (" (line: " ++ toString line ++ ")")) ?_,
      strContains_of_eq
        (p := tag ++ ": " ++ "Invalid " ++ a ++ ": " ++
          ("could not convert string to float: '" ++ raw ++ "'"))
        (q := "") ?_⟩
    · show tag ++ ": " ++ ("Invalid " ++ a ++ ": " ++
        ("could not convert string to float: '" ++ raw ++ "'")) ++
        " (line: " ++ toString line ++ ")" = _
      simp only [String.append_assoc]
    · show tag ++ ": " ++ ("Invalid " ++ a ++ ": " ++
        ("could not convert string to float: '" ++ raw ++ "'")) ++
        " (line: " ++ toString line ++ ")" = _
      simp only [String.append_assoc, String.append_empty]

theorem typed_attr_conversion_error_witness :
    lookupAttr [("size", "1 2")] "size" = some "1 2" ∧
    convertFloat3 "1 2" = .error (.invalidValue "1 2") ∧
    convertCommonAttrs "box" 7 [("size", "1 2")]
        { kind := .box, tag := "box", path := "/robot/link/visual/geometry/box", line := 7 } =
      .error (.structural "box" (.invalidAttr "size" (.invalidValue "1 2")) 7) :=
  ⟨by decide, by decide,
   (typed_attr_conversion_error "box" 7 [("size", "1 2")]
     { kind := .box, tag := "box", path := "/robot/link/visual/geometry/box", line := 7 }
     "1 2" (.invalidValue "1 2")).1 (by decide) (by decide)⟩

/-- The document whose inertial mass carries a malformed scalar. -/
def massBadDoc : XmlNode := .mk "robot" [("name", "r")] 1 none [
  .mk "link" [("name", "a")] 2 none [
    .mk "inertial" [] 3 none [
      .mk "mass" [("mass", "abc")] 4 none []]]]

/-- C9 counterexample: a malformed scalar on the mass element (parser line
282-284, an unwrapped `float(node.attrib["mass"])`) fails the parse with the
bare `float()` error, which embeds the raw string but cites no source line —
the claim's uniform "structural error including the raw offending string and
the source line" is false for the mass element. -/
theorem mass_conversion_error_has_no_line :
    parseErrOf (parseURDF massBadDoc) = some (.bare (.floatConv "abc")) ∧
    PErr.citesLine (.bare (.floatConv "abc")) = false ∧
    renderPErr (.bare (.floatConv "abc")) =
      "could not convert string to float: 'abc'" := by
  refine ⟨by decide, by decide, by decide⟩

/-! ### Theorems about sibling-name uniqueness (C2) -/

theorem appendUndef_data (e x : Element) : (e.appendUndef x).data = e.data := by
  cases e; rfl

theorem appendLink_data (e x : Element) : (e.appendLink x).data = e.data := by
  cases e; rfl

theorem appendMaterial_data (e x : Element) : (e.appendMaterial x).data = e.data := by
  cases e; rfl

theorem appendJoint_data (e x : Element) : (e.appendJoint x).data = e.data := by
  cases e; rfl

theorem appendTrans_data (e x : Element) : (e.appendTrans x).data = e.data := by
  cases e; rfl

theorem setSlot_data (e : Element) (n : String) (x : Element) :
    (e.setSlot n x).data = e.data := by
  cases e; rfl

/-- The association step never changes the parent element's own scalar
data (it only appends to its collections or fills its slots). -/
theorem attachByKind_data {prev : Element} {tag : String} {line : Int}
    {e prev1 : Element} (h : attachByKind prev tag line e = .ok prev1) :
    prev1.data = prev.data := by
  unfold attachByKind at h
  repeat' split at h
  all_goals cases h
  all_goals
    first
    | rfl
    | rw [appendLink_data]
    | rw [appendMaterial_data]
    | rw [appendJoint_data]
    | rw [appendTrans_data]
    | rw [setSlot_data]

theorem attachElement_data {prev : Element} {tag : String} {line : Int}
    {e prev1 : Element} (h : attachElement prev tag line e = .ok prev1) :
    prev1.data = prev.data := by
  unfold attachElement at h
  cases hk : attachByKind prev tag line e with
  | error err =>
    rw [hk] at h
    exact absurd h (by simp [Bind.bind, Except.bind])
  | ok p1 =>
    rw [hk] at h
    simp [Bind.bind, Except.bind] at h
    split at h <;> cases h
    · rw [appendUndef_data]
      exact attachByKind_data hk
    · exact attachByKind_data hk

theorem parseStep_data {rec : XmlNode → Option PrevCtx → Except PErr Element}
    {ctx : PrevCtx} {prevElem : Element} {c : XmlNode} {R : Element}
    (h : parseStep rec ctx prevElem c = .ok R) : R.data = prevElem.data := by
  unfold parseStep at h
  cases hr : rec c (some ctx) with
  | error err => rw [hr] at h; exact absurd h (by simp [Bind.bind, Except.bind])
  | ok ce =>
    rw [hr] at h
    simp [Bind.bind, Except.bind] at h
    exact attachElement_data h

theorem foldlM_parseStep_data {rec : XmlNode → Option PrevCtx → Except PErr Element}
    {ctx : PrevCtx} :
    ∀ {l : List XmlNode} {prevElem R : Element},
      List.foldlM (parseStep rec ctx) prevElem l = .ok R → R.data = prevElem.data := by
  intro l
  induction l with
  | nil =>
    intro prevElem R h
    have h2 : (Except.ok prevElem : Except PErr Element) = Except.ok R := h
    cases h2
    rfl
  | cons c rest ih =>
    intro prevElem R h
    rw [List.foldlM_cons] at h
    cases hs : parseStep rec ctx prevElem c with
    | error err => rw [hs] at h; exact absurd h (by simp [Bind.bind, Except.bind])
    | ok E1 =>
      rw [hs] at h
      simp [Bind.bind, Except.bind] at h
      rw [ih h, parseStep_data hs]

/-- The robot-level duplicate checks of the association step, one per
collection. -/
theorem attachByKind_dup_link {prev : Element} {line : Int} {e : Element}
    {n : String} (hk : prev.data.kind = EKind.robot) (hn : e.data.name = some n)
    (hmem : (prev.links.map fun l => l.data.name).contains (some n) = true) :
    attachByKind prev "link" line e =
      .error (.structural "link" (.nameExists "Link" n) line) := by
  unfold attachByKind
  rw [hk, hn]
  simp only [hmem, Option.getD_some, reduceIte, if_true]

theorem attachByKind_dup_material {prev : Element} {line : Int} {e : Element}
    {n : String} (hk : prev.data.kind = EKind.robot)
    (he : e.data.kind = EKind.materialGlobal) (hn : e.data.name = some n)
    (hmem : (prev.mats.map fun m => m.data.name).contains (some n) = true) :
    attachByKind prev "material" line e =
      .error (.structural "material" (.nameExists "Material" n) line) := by
  unfold attachByKind
  rw [hk, hn, he]
  simp only [hmem, Option.getD_some, reduceIte, if_true, and_self]
  rw [if_neg (show ¬ ("material" = "link") by decide)]

theorem attachByKind_dup_joint {prev : Element} {line : Int} {e : Element}
    {n : String} (hk : prev.data.kind = EKind.robot) (hn : e.data.name = some n)
    (hmem : (prev.joints.map fun j => j.data.name).contains (some n) = true) :
    attachByKind prev "joint" line e =
      .error (.structural "joint" (.nameExists "Joint" n) line) := by
  unfold attachByKind
  rw [hk, hn]
  simp only [hmem, Option.getD_some, reduceIte, if_true]
  rw [if_neg (show ¬ ("joint" = "link") by decide),
    if_neg (fun h => absurd h.1 (show ¬ ("joint" = "material") by decide))]

theorem attachElement_of_attachByKind_error {prev : Element} {tag : String}
    {line : Int} {e : Element} {err : PErr}
    (h : attachByKind prev tag line e = .error err) :
    attachElement prev tag line e = .error err := by
  unfold attachElement
  rw [h]
  rfl

/-- C2 (core): with the robot's children processed incrementally in
document order, a sibling whose parsed name is already present in the
corresponding robot collection makes the very next association step fail
with a structural error naming the duplicate and citing its source line —
for links, materials and joints alike.  (`rec` is the recursive call used
for each sibling; the prefix `pre` parses successfully first, so the first
duplicate in document order is the one reported.) -/
theorem parse_duplicate_sibling_name
    (rec : XmlNode → Option PrevCtx → Except PErr Element)
    (R R1 : Element) (pre rest : List XmlNode) (d : XmlNode) (e : Element)
    (n : String)
    (hk : R.data.kind = EKind.robot)
    (h1 : parseSiblings rec R pre = .ok R1)
    (h2 : rec d (some ⟨R.data.kind, R.data.tag, R.data.path⟩) = .ok e)
    (hn : e.data.name = some n) :
    (d.tag = "link" →
      (R1.links.map fun l => l.data.name).contains (some n) = true →
      parseSiblings rec R (pre ++ d :: rest) =
        .error (.structural "link" (.nameExists "Link" n) d.line)) ∧
    (d.tag = "material" → e.data.kind = EKind.materialGlobal →
      (R1.mats.map fun m => m.data.name).contains (some n) = true →
      parseSiblings rec R (pre ++ d :: rest) =
        .error (.structural "material" (.nameExists "Material" n) d.line)) ∧
    (d.tag = "joint" →
      (R1.joints.map fun j => j.data.name).contains (some n) = true →
      parseSiblings rec R (pre ++ d :: rest) =
        .error (.structural "joint" (.nameExists "Joint" n) d.line)) := by
  have hdata : R1.data = R.data := foldlM_parseStep_data h1
  have hk1 : R1.data.kind = EKind.robot := by rw [hdata]; exact hk
  have hsplit : ∀ err : PErr,
      attachElement R1 d.tag d.line e = .error err →
      parseSiblings rec R (pre ++ d :: rest) = .error err := by
    intro err ha
    have hstep : parseStep rec ⟨R.data.kind, R.data.tag, R.data.path⟩ R1 d =
        .error err := by
      unfold parseStep
      rw [h2]
      show attachElement R1 d.tag d.line e = .error err
      exact ha
    unfold parseSiblings at h1 ⊢
    rw [List.foldlM_append, h1]
    simp only [List.foldlM_cons, Bind.bind, Except.bind, hstep]
  refine ⟨?_, ?_, ?_⟩
  · intro htag hmem
    refine hsplit _ ?_
    rw [htag]
    exact attachElement_of_attachByKind_error (attachByKind_dup_link hk1 hn hmem)
  · intro htag hkind hmem
    refine hsplit _ ?_
    rw [htag]
    exact attachElement_of_attachByKind_error
      (attachByKind_dup_material hk1 hkind hn hmem)
  · intro htag hmem
    refine hsplit _ ?_
    rw [htag]
    exact attachElement_of_attachByKind_error (attachByKind_dup_joint hk1 hn hmem)

/-- A robot element whose `links` collection already holds a link named
`"a"` (as produced by parsing an earlier `<link name="a">` sibling). -/
def linkStubA : Element :=
  Element.mk { kind := .link, tag := "link", path := "/robot/link", line := 2, name := some "a" }
    [] [] [] [] [] []

def robotW : Element :=
  Element.mk { kind := .robot, tag := "robot", path := "/robot", line := 1, name := some "r" }
    [] [] [linkStubA] [] [] []

/-- The duplicate sibling: `<link name="a"/>` on line 3. -/
def dupNodeW : XmlNode := XmlNode.mk "link" [("name", "a")] 3 none []

/-- What `_parse_xml_elements` produces for `dupNodeW` under the robot. -/
def eDupW : Element :=
  Element.mk { kind := .link, tag := "link", path := "/robot/link", line := 3, name := some "a" }
    [] [] [] [] [] [("inertial", none), ("visual", none), ("collision", none)]

theorem parse_duplicate_sibling_name_witness :
    parseSiblings (parseNodeF 1) robotW ([] ++ dupNodeW :: []) =
      .error (.structural "link" (.nameExists "Link" "a") 3) :=
  (parse_duplicate_sibling_name (parseNodeF 1) robotW robotW [] [] dupNodeW eDupW
    "a" rfl rfl rfl rfl).1 rfl (by decide)

/-! ### Theorems about recursive undefined containment (C7) -/

/-- A wholly unrecognized subtree: the element is an `ElementUndefined`
(no typed entity), its robot collections and attribute slots are untouched,
and every captured child element is itself wholly unrecognized. -/
inductive AllUndefined : Element → Prop where
  | mk : ∀ (d : EData) (u : List Element), d.kind = EKind.undefinedE →
      (∀ x ∈ u, AllUndefined x) →
      AllUndefined (Element.mk d u [] [] [] [] [])

/-- The only ways parsing can fail below an unrecognized element: the fuel
artifact of the encoding, or a guarded typed-attribute conversion failure
(`Invalid size/xyz/rpy/radius/length`) — never the registry errors
(`Invalid element type…`, `Invalid geometry type`, `name is required`,
joint-type errors). -/
def UndefSubtreeErr (err : PErr) : Prop :=
  err = .fuelExhausted ∨ ∃ t a ce l, err = .structural t (.invalidAttr a ce) l

theorem except_bind_err {ε α β : Type} {x : Except ε α} {f : α → Except ε β}
    {err : ε} (h : x >>= f = .error err) :
    x = .error err ∨ ∃ a, x = .ok a ∧ f a = .error err := by
  cases x with
  | error e =>
    left
    have h2 : (Except.error e : Except ε β) = .error err := h
    cases h2
    rfl
  | ok a => exact Or.inr ⟨a, rfl, h⟩

theorem except_bind_ok {ε α β : Type} {x : Except ε α} {f : α → Except ε β}
    {b : β} (h : x >>= f = .ok b) : ∃ a, x = .ok a ∧ f a = .ok b := by
  cases x with
  | error e =>
    exact absurd (show (Except.error e : Except ε β) = .ok b from h) (by simp)
  | ok a => exact ⟨a, rfl, h⟩

theorem except_pure_bind {ε α β : Type} (a : α) (f : α → Except ε β) :
    ((pure a : Except ε α) >>= f) = f a := rfl

theorem except_ok_bind {ε α β : Type} (a : α) (f : α → Except ε β) :
    ((Except.ok a : Except ε α) >>= f) = f a := rfl

theorem except_map_err {ε α β : Type} {x : Except ε α} {f : α → β} {err : ε}
    (h : x.map f = .error err) : x = .error err := by
  cases x with
  | error e =>
    have h2 : (Except.error e : Except ε β) = .error err := h
    cases h2
    rfl
  | ok a => exact absurd h (by simp [Except.map])

theorem except_map_ok {ε α β : Type} {x : Except ε α} {f : α → β} {b : β}
    (h : x.map f = .ok b) : ∃ a, x = .ok a ∧ b = f a := by
  cases x with
  | error e => exact absurd h (by simp [Except.map])
  | ok a =>
    have h2 : (Except.ok (f a) : Except ε β) = .ok b := h
    cases h2
    exact ⟨a, rfl, rfl⟩

theorem wrapAttr3_err {tag a : String} {line : Int} {v : String} {err : PErr}
    (h : wrapAttr3 tag a line v = .error err) :
    ∃ ce, err = .structural tag (.invalidAttr a ce) line := by
  unfold wrapAttr3 at h
  cases hc : convertFloat3 v with
  | error ce =>
    rw [hc] at h
    have h2 : (Except.error (PErr.structural tag (.invalidAttr a ce) line) :
        Except PErr (PyFloat × PyFloat × PyFloat)) = .error err := h
    cases h2
    exact ⟨ce, rfl⟩
  | ok t =>
    rw [hc] at h
    exact absurd h (by simp [Except.mapError])

theorem wrapAttrF_err {tag a : String} {line : Int} {v : String} {err : PErr}
    (h : wrapAttrF tag a line v = .error err) :
    ∃ ce, err = .structural tag (.invalidAttr a ce) line := by
  unfold wrapAttrF at h
  cases hp : pyFloat v with
  | some f => rw [hp] at h; exact absurd h (by simp)
  | none =>
    rw [hp] at h
    have h2 : (Except.error (PErr.structural tag (.invalidAttr a (.floatConv v)) line) :
        Except PErr PyFloat) = .error err := h
    cases h2
    exact ⟨.floatConv v, rfl⟩

/-- Every failure of the common typed-attribute block is an
attribute-conversion structural error naming this element's tag and line. -/
theorem convertCommonAttrs_err {tag : String} {line : Int}
    {attrib : List (String × String)} {d : EData} {err : PErr}
    (h : convertCommonAttrs tag line attrib d = .error err) :
    ∃ a ce, err = .structural tag (.invalidAttr a ce) line := by
  unfold convertCommonAttrs at h
  rcases except_bind_err h with h1 | ⟨d1, _, h⟩
  · cases hs : lookupAttr attrib "size" with
    | none => rw [hs] at h1; exact absurd h1 (by simp [Pure.pure, Except.pure])
    | some v =>
      rw [hs] at h1
      obtain ⟨ce, rfl⟩ := wrapAttr3_err (except_map_err h1)
      exact ⟨"size", ce, rfl⟩
  · rcases except_bind_err h with h1 | ⟨d2, _, h⟩
    · cases hs : lookupAttr attrib "xyz" with
      | none => rw [hs] at h1; exact absurd h1 (by simp [Pure.pure, Except.pure])
      | some v =>
        rw [hs] at h1
        obtain ⟨ce, rfl⟩ := wrapAttr3_err (except_map_err h1)
        exact ⟨"xyz", ce, rfl⟩
    · rcases except_bind_err h with h1 | ⟨d3, _, h⟩
      · cases hs : lookupAttr attrib "rpy" with
        | none => rw [hs] at h1; exact absurd h1 (by simp [Pure.pure, Except.pure])
        | some v =>
          rw [hs] at h1
          obtain ⟨ce, rfl⟩ := wrapAttr3_err (except_map_err h1)
          exact ⟨"rpy", ce, rfl⟩
      · rcases except_bind_err h with h1 | ⟨d4, _, h⟩
        · cases hs : lookupAttr attrib "radius" with
          | none => rw [hs] at h1; exact absurd h1 (by simp [Pure.pure, Except.pure])
          | some v =>
            rw [hs] at h1
            obtain ⟨ce, rfl⟩ := wrapAttrF_err (except_map_err h1)
            exact ⟨"radius", ce, rfl⟩
        · rcases except_bind_err h with h1 | ⟨d5, _, h⟩
          · cases hs : lookupAttr attrib "length" with
            | none => rw [hs] at h1; exact absurd h1 (by simp [Pure.pure, Except.pure])
            | some v =>
              rw [hs] at h1
              obtain ⟨ce, rfl⟩ := wrapAttrF_err (except_map_err h1)
              exact ⟨"length", ce, rfl⟩
          · exact absurd h (by simp [Pure.pure, Except.pure])

/-- The common typed-attribute block only fills vector/scalar fields: the
element's resolved type, tag, path and line pass through unchanged. -/
theorem convertCommonAttrs_ok_inv {tag : String} {line : Int}
    {attrib : List (String × String)} {d dR : EData}
    (h : convertCommonAttrs tag line attrib d = .ok dR) :
    dR.kind = d.kind ∧ dR.tag = d.tag ∧ dR.path = d.path ∧ dR.line = d.line := by
  unfold convertCommonAttrs at h
  rcases except_bind_ok h with ⟨c1, g1, h⟩
  rcases except_bind_ok h with ⟨c2, g2, h⟩
  rcases except_bind_ok h with ⟨c3, g3, h⟩
  rcases except_bind_ok h with ⟨c4, g4, h⟩
  rcases except_bind_ok h with ⟨c5, g5, h⟩
  have p1 : c1.kind = d.kind ∧ c1.tag = d.tag ∧ c1.path = d.path ∧
      c1.line = d.line := by
    cases hs : lookupAttr attrib "size" with
    | none =>
      rw [hs] at g1
      have h7 : (Except.ok d : Except PErr EData) = .ok c1 := g1
      cases h7
      exact ⟨rfl, rfl, rfl, rfl⟩
    | some v =>
      rw [hs] at g1
      obtain ⟨t, _, rfl⟩ := except_map_ok g1
      exact ⟨rfl, rfl, rfl, rfl⟩
  have p2 : c2.kind = c1.kind ∧ c2.tag = c1.tag ∧ c2.path = c1.path ∧
      c2.line = c1.line := by
    cases hs : lookupAttr attrib "xyz" with
    | none =>
      rw [hs] at g2
      have h7 : (Except.ok c1 : Except PErr EData) = .ok c2 := g2
      cases h7
      exact ⟨rfl, rfl, rfl, rfl⟩
    | some v =>
      rw [hs] at g2
      obtain ⟨t, _, rfl⟩ := except_map_ok g2
      exact ⟨rfl, rfl, rfl, rfl⟩
  have p3 : c3.kind = c2.kind ∧ c3.tag = c2.tag ∧ c3.path = c2.path ∧
      c3.line = c2.line := by
    cases hs : lookupAttr attrib "rpy" with
    | none =>
      rw [hs] at g3
      have h7 : (Except.ok c2 : Except PErr EData) = .ok c3 := g3
      cases h7
      exact ⟨rfl, rfl, rfl, rfl⟩
    | some v =>
      rw [hs] at g3
      obtain ⟨t, _, rfl⟩ := except_map_ok g3
      exact ⟨rfl, rfl, rfl, rfl⟩
  have p4 : c4.kind = c3.kind ∧ c4.tag = c3.tag ∧ c4.path = c3.path ∧
      c4.line = c3.line := by
    cases hs : lookupAttr attrib "radius" with
    | none =>
      rw [hs] at g4
      have h7 : (Except.ok c3 : Except PErr EData) = .ok c4 := g4
      cases h7
      exact ⟨rfl, rfl, rfl, rfl⟩
    | some v =>
      rw [hs] at g4
      obtain ⟨t, _, rfl⟩ := except_map_ok g4
      exact ⟨rfl, rfl, rfl, rfl⟩
  have p5 : c5.kind = c4.kind ∧ c5.tag = c4.tag ∧ c5.path = c4.path ∧
      c5.line = c4.line := by
    cases hs : lookupAttr attrib "length" with
    | none =>
      rw [hs] at g5
      have h7 : (Except.ok c4 : Except PErr EData) = .ok c5 := g5
      cases h7
      exact ⟨rfl, rfl, rfl, rfl⟩
    | some v =>
      rw [hs] at g5
      obtain ⟨t, _, rfl⟩ := except_map_ok g5
      exact ⟨rfl, rfl, rfl, rfl⟩
  have p6 : dR.kind = c5.kind ∧ dR.tag = c5.tag ∧ dR.path = c5.path ∧
      dR.line = c5.line := by
    cases hv : lookupAttr attrib "version" with
    | none =>
      rw [hv] at h
      have h7 : (Except.ok c5 : Except PErr EData) = .ok dR := h
      cases h7
      exact ⟨rfl, rfl, rfl, rfl⟩
    | some v =>
      rw [hv] at h
      have h7 : (Except.ok { c5 with version := some v } : Except PErr EData) =
          .ok dR := h
      cases h7
      exact ⟨rfl, rfl, rfl, rfl⟩
  exact ⟨p6.1.trans (p5.1.trans (p4.1.trans (p3.1.trans (p2.1.trans p1.1)))),
    p6.2.1.trans (p5.2.1.trans (p4.2.1.trans (p3.2.1.trans (p2.2.1.trans p1.2.1)))),
    p6.2.2.1.trans (p5.2.2.1.trans (p4.2.2.1.trans (p3.2.2.1.trans
      (p2.2.2.1.trans p1.2.2.1)))),
    p6.2.2.2.trans (p5.2.2.2.trans (p4.2.2.2.trans (p3.2.2.2.trans
      (p2.2.2.2.trans p1.2.2.2))))⟩

/-- The shape invariant maintained while folding the children of an
unrecognized element. -/
def UndefShape (e : Element) : Prop :=
  match e with
  | .mk d u m l j t s =>
    d.kind = EKind.undefinedE ∧ m = [] ∧ l = [] ∧ j = [] ∧ t = [] ∧ s = [] ∧
      ∀ x ∈ u, AllUndefined x

theorem allUndefined_of_shape {e : Element} (h : UndefShape e) :
    AllUndefined e := by
  cases e with
  | mk d u m l j t s =>
    obtain ⟨hk, rfl, rfl, rfl, rfl, rfl, hu⟩ := h
    exact AllUndefined.mk d u hk hu

theorem undefShape_kind {e : Element} (h : UndefShape e) :
    e.data.kind = EKind.undefinedE := by
  cases e with
  | mk d u m l j t s => exact h.1

/-- An unrecognized parent never slots or collects a child through the
kind-specific attach step — the element passes through untouched. -/
theorem attachByKind_undef {prev : Element} {tag : String} {line : Int}
    {e : Element} (hk : prev.data.kind = EKind.undefinedE) :
    attachByKind prev tag line e = .ok prev := by
  unfold attachByKind
  rw [hk]

/-- Under an unrecognized parent the association step always succeeds and
records the child in `undefined_elements`. -/
theorem attachElement_undef {prev : Element} {tag : String} {line : Int}
    {e : Element} (hk : prev.data.kind = EKind.undefinedE) :
    attachElement prev tag line e = .ok (prev.appendUndef e) := by
  unfold attachElement
  rw [attachByKind_undef hk]
  simp [Bind.bind, Except.bind, Pure.pure, Except.pure, hk]

theorem foldlM_parseStep_undef
    {rec : XmlNode → Option PrevCtx → Except PErr Element} {ctx2 : PrevCtx} :
    ∀ {l : List XmlNode} {prevE : Element},
      (∀ c ∈ l,
        (∀ e2, rec c (some ctx2) = .ok e2 → AllUndefined e2) ∧
        (∀ err, rec c (some ctx2) = .error err → UndefSubtreeErr err)) →
      UndefShape prevE →
      (∀ R, List.foldlM (parseStep rec ctx2) prevE l = .ok R → UndefShape R) ∧
      (∀ err, List.foldlM (parseStep rec ctx2) prevE l = .error err →
        UndefSubtreeErr err) := by
  intro l
  induction l with
  | nil =>
    intro prevE hc hshape
    refine ⟨?_, ?_⟩
    · intro R h
      have h2 : (Except.ok prevE : Except PErr Element) = .ok R := h
      cases h2
      exact hshape
    · intro err h
      exact absurd (show (Except.ok prevE : Except PErr Element) = .error err
        from h) (by simp)
  | cons c rest ih =>
    intro prevE hc hshape
    have hkind : prevE.data.kind = EKind.undefinedE := undefShape_kind hshape
    have hstep : ∀ E1, parseStep rec ctx2 prevE c = .ok E1 → UndefShape E1 := by
      intro E1 h
      unfold parseStep at h
      cases hr : rec c (some ctx2) with
      | error err =>
        rw [hr] at h
        exact absurd h (by simp [Bind.bind, Except.bind])
      | ok ce =>
        rw [hr] at h
        have hall : AllUndefined ce := (hc c (List.mem_cons_self c rest)).1 ce hr
        have h2 : attachElement prevE c.tag c.line ce = .ok E1 := h
        rw [attachElement_undef hkind] at h2
        have h3 : (Except.ok (prevE.appendUndef ce) : Except PErr Element) =
            .ok E1 := h2
        cases h3
        cases prevE with
        | mk d u m l2 j t s =>
          obtain ⟨h1, rfl, rfl, rfl, rfl, rfl, hu⟩ := hshape
          refine ⟨h1, rfl, rfl, rfl, rfl, rfl, ?_⟩
          intro x hx
          rcases List.mem_append.1 hx with hx2 | hx2
          · exact hu x hx2
          · have hx3 := List.mem_singleton.1 hx2
            subst hx3
            exact hall
    have hstepE : ∀ err, parseStep rec ctx2 prevE c = .error err →
        UndefSubtreeErr err := by
      intro err h
      unfold parseStep at h
      rcases except_bind_err h with h1 | ⟨ce, _, h2⟩
      · exact (hc c (List.mem_cons_self c rest)).2 err h1
      · have h3 : attachElement prevE c.tag c.line ce = .error err := h2
        rw [attachElement_undef hkind] at h3
        exact absurd h3 (by simp)
    refine ⟨?_, ?_⟩
    · intro R h
      rw [List.foldlM_cons] at h
      rcases except_bind_ok h with ⟨E1, h1, h2⟩
      exact (ih (fun c2 hc2 => hc c2 (List.mem_cons_of_mem c hc2))
        (hstep E1 h1)).1 R h2
    · intro err h
      rw [List.foldlM_cons] at h
      rcases except_bind_err h with h1 | ⟨E1, h1, h2⟩
      · exact hstepE err h1
      · exact (ih (fun c2 hc2 => hc c2 (List.mem_cons_of_mem c hc2))
          (hstep E1 h1)).2 err h2

/-- Folding the children of a freshly created unrecognized element yields a
wholly unrecognized subtree with the element's own data untouched. -/
theorem parseSiblings_undef_general
    {rec : XmlNode → Option PrevCtx → Except PErr Element} {D4 : EData}
    {children : List XmlNode}
    (hk : D4.kind = EKind.undefinedE)
    (hc : ∀ c ∈ children,
      (∀ e2, rec c (some ⟨D4.kind, D4.tag, D4.path⟩) = .ok e2 → AllUndefined e2) ∧
      (∀ err, rec c (some ⟨D4.kind, D4.tag, D4.path⟩) = .error err →
        UndefSubtreeErr err)) :
    (∀ R, parseSiblings rec (Element.mk D4 [] [] [] [] [] []) children = .ok R →
      AllUndefined R ∧ R.data = D4) ∧
    (∀ err, parseSiblings rec (Element.mk D4 [] [] [] [] [] []) children =
        .error err → UndefSubtreeErr err) := by
  have hshape : UndefShape (Element.mk D4 [] [] [] [] [] []) :=
    ⟨hk, rfl, rfl, rfl, rfl, rfl, fun x hx => absurd hx (by simp)⟩
  have hfold := foldlM_parseStep_undef hc hshape
  refine ⟨?_, ?_⟩
  · intro R h
    have h2 : List.foldlM (parseStep rec ⟨D4.kind, D4.tag, D4.path⟩)
        (Element.mk D4 [] [] [] [] [] []) children = .ok R := h
    exact ⟨allUndefined_of_shape (hfold.1 R h2), foldlM_parseStep_data h2⟩
  · intro err h
    have h2 : List.foldlM (parseStep rec ⟨D4.kind, D4.tag, D4.path⟩)
        (Element.mk D4 [] [] [] [] [] []) children = .error err := h
    exact hfold.2 err h2

/-- C7 (amended): every XML node parsed below an element that was captured
as unrecognized is itself captured as an unrecognized element — never
matched against the schema registry even when its tag is reserved, so it is
never parsed into a typed entity and never raises the registry's structural
tag errors (`Invalid element type…`, `Invalid geometry type`, name/type
requirements): a successful parse of the subtree is wholly unrecognized with
all raw attributes preserved.  The original claim's further consequence that
no node below an unrecognized element can raise any structural error is
FALSE, because the common typed-attribute conversions (`size`, `xyz`, `rpy`,
`radius`, `length`) still run on unrecognized elements and abort the parse
on malformed values (see the counterexample); such failures are exactly the
attribute-conversion errors (or the fuel artifact of this encoding). -/
theorem parse_under_undefined_subtree (fuel : Nat) :
    ∀ (node : XmlNode) (ctx : PrevCtx), ctx.kind = EKind.undefinedE →
      (∀ e, parseNodeF fuel node (some ctx) = .ok e →
        AllUndefined e ∧ e.data.tag = node.tag ∧
          e.data.undefinedAttributes = node.attrib) ∧
      (∀ err, parseNodeF fuel node (some ctx) = .error err →
        UndefSubtreeErr err) := by
  induction fuel with
  | zero =>
    intro node ctx hctx
    refine ⟨?_, ?_⟩
    · intro e h
      exact absurd (show (Except.error PErr.fuelExhausted :
        Except PErr Element) = .ok e from h) (by simp)
    · intro err h
      have h2 : (Except.error PErr.fuelExhausted : Except PErr Element) =
          .error err := h
      cases h2
      exact Or.inl rfl
  | succ fuel ih =>
    intro node ctx hctx
    cases node with
    | mk tag attrib line text children =>
      have hg : (EKind.undefinedE == EKind.geometry) = false := rfl
      have hu2 : (EKind.undefinedE == EKind.undefinedE) = true := rfl
      have hnr : nameRequiredKind EKind.undefinedE = false := rfl
      have hj : (EKind.undefinedE = EKind.joint) = False := eq_false (by decide)
      have hck : ∀ d, convertKindAttrs EKind.undefinedE tag line attrib d =
          Except.ok { d with undefinedAttributes := attrib } := fun d => rfl
      have hslots : initSlots EKind.undefinedE =
          ([] : List (String × Option Element)) := rfl
      refine ⟨?_, ?_⟩
      · intro e h
        simp only [parseNodeF, parseBody, hctx, hg, hu2, hnr, hj, Bool.false_and,
          Bool.true_or, Bool.false_eq_true, and_false, reduceIte, except_pure_bind,
          except_ok_bind, hck, hslots] at h
        rcases except_bind_ok h with ⟨d3, hd3, h⟩
        rcases except_bind_ok h with ⟨e1, he1, h⟩
        have he : (Except.ok e1 : Except PErr Element) = .ok e := h
        cases he
        have hinv := convertCommonAttrs_ok_inv hd3
        have hkind3 : d3.kind = EKind.undefinedE := hinv.1
        have htag3 : d3.tag = tag := hinv.2.1
        obtain ⟨hA, hD⟩ := (parseSiblings_undef_general (by exact hkind3)
          (by
            intro c hcm
            refine ⟨fun e2 h2 => ((ih c ⟨d3.kind, d3.tag, d3.path⟩ hkind3).1 e2 h2).1,
              fun err2 h2 => (ih c ⟨d3.kind, d3.tag, d3.path⟩ hkind3).2 err2 h2⟩)).1 e he1
        refine ⟨hA, ?_, ?_⟩
        · rw [hD]; exact htag3
        · rw [hD]
          rfl
      · intro err h
        simp only [parseNodeF, parseBody, hctx, hg, hu2, hnr, hj, Bool.false_and,
          Bool.true_or, Bool.false_eq_true, and_false, reduceIte, except_pure_bind,
          except_ok_bind, hck, hslots] at h
        rcases except_bind_err h with h1 | ⟨d3, hd3, h⟩
        · obtain ⟨a, ce, rfl⟩ := convertCommonAttrs_err h1
          exact Or.inr ⟨tag, a, ce, line, rfl⟩
        · have hinv := convertCommonAttrs_ok_inv hd3
          have hkind3 : d3.kind = EKind.undefinedE := hinv.1
          rcases except_bind_err h with h2 | ⟨e1, he1, h3⟩
          · exact (parseSiblings_undef_general (by exact hkind3)
              (by
                intro c hcm
                refine ⟨fun e2 h3 => ((ih c ⟨d3.kind, d3.tag, d3.path⟩ hkind3).1 e2 h3).1,
                  fun err2 h3 => (ih c ⟨d3.kind, d3.tag, d3.path⟩ hkind3).2 err2 h3⟩)).2 err h2
          · exact absurd h3 (by simp [Pure.pure, Except.pure])

def undefCtxW : PrevCtx := ⟨.undefinedE, "foo", "/robot/foo"⟩

/-- A node with a reserved tag (`box`) under an unrecognized parent. -/
def boxUndefNodeW : XmlNode := XmlNode.mk "box" [("custom", "1")] 3 none []

def eBoxUndefW : Element :=
  Element.mk { kind := .undefinedE, tag := "box", path := "/robot/foo/box", line := 3, undefinedAttributes := [("custom", "1")] }
    [] [] [] [] [] []

theorem parse_under_undefined_subtree_witness :
    PrevCtx.kind undefCtxW = EKind.undefinedE ∧
    (AllUndefined eBoxUndefW ∧ eBoxUndefW.data.tag = boxUndefNodeW.tag ∧
      eBoxUndefW.data.undefinedAttributes = boxUndefNodeW.attrib) :=
  ⟨rfl, (parse_under_undefined_subtree 1 boxUndefNodeW undefCtxW rfl).1
    eBoxUndefW rfl⟩

/-- The document whose unrecognized `foo` element contains a reserved `box`
child with a malformed `size` attribute. -/
def undefSubtreeDoc : XmlNode :=
  XmlNode.mk "robot" [("name", "r")] 1 none
    [XmlNode.mk "foo" [] 2 none [XmlNode.mk "box" [("size", "1 2")] 3 none []]]

/-- C7 counterexample: a node below an unrecognized element CAN abort the
parse with a structural error — the guarded `size` conversion (parser lines
238-246) runs on the captured subtree too, so the claim's "no node below an
unrecognized element … raises a structural error" is false. -/
theorem undefined_subtree_attr_error :
    parseErrOf (parseURDF undefSubtreeDoc) =
      some (.structural "box" (.invalidAttr "size" (.invalidValue "1 2")) 3) := by
  decide

/-! ### Theorems about undefined-content collection (C8) -/

/-- No two collected records share a (structural path, line) key. -/
def KeysOk (l : List UndefinedData) : Prop :=
  List.Pairwise (fun a b => ¬(a.path = b.path ∧ a.line = b.line)) l

theorem keysOk_append {acc : List UndefinedData} {x : UndefinedData}
    (h : KeysOk acc) (hk : hasKey acc x.path x.line = false) :
    KeysOk (acc ++ [x]) := by
  have hmem : ∀ a ∈ acc, ¬(a.path = x.path ∧ a.line = x.line) := by
    intro a ha hax
    have hpx : (a.path == x.path && a.line == x.line) = true := by
      simp [hax.1, hax.2]
    have h2 : (List.any acc fun u => u.path == x.path && u.line == x.line) =
        true := List.any_eq_true.2 ⟨a, ha, hpx⟩
    rw [hasKey] at hk
    rw [h2] at hk
    cases hk
  unfold KeysOk at h ⊢
  rw [List.pairwise_append]
  refine ⟨h, List.pairwise_singleton _ _, ?_⟩
  intro a ha b hb
  have hb2 := List.mem_singleton.1 hb
  subst hb2
  exact hmem a ha

/-- The round-trip scenario: a link with an unrecognized child (carrying an
unrecognized attribute) next to an ordinary sibling link. -/
def scenC8Doc : XmlNode :=
  XmlNode.mk "robot" [("name", "r")] 1 none
    [XmlNode.mk "link" [("name", "a")] 2 none
       [XmlNode.mk "custom" [("foo", "1")] 3 none []],
     XmlNode.mk "link" [("name", "b")] 4 none []]

/-- What `_parse_xml_elements` produces for `scenC8Doc`. -/
def eScenC8C : Element :=
  Element.mk { kind := .undefinedE, tag := "custom", path := "/robot/link/custom", line := 3, undefinedAttributes := [("foo", "1")] }
    [] [] [] [] [] []

def eScenC8A : Element :=
  Element.mk { kind := .link, tag := "link", path := "/robot/link", line := 2, name := some "a" }
    [eScenC8C] [] [] [] [] [("inertial", none), ("visual", none), ("collision", none)]

def eScenC8B : Element :=
  Element.mk { kind := .link, tag := "link", path := "/robot/link", line := 4, name := some "b" }
    [] [] [] [] [] [("inertial", none), ("visual", none), ("collision", none)]

def eScenC8 : Element :=
  Element.mk { kind := .robot, tag := "robot", path := "/robot", line := 1, name := some "r" }
    [] [] [eScenC8A, eScenC8B] [] [] []

/-- C8 (amended): the undefined-content collection never emits two records
with the same (structural path, source line) key — every accumulator that
is key-distinct stays key-distinct, so `get_undefined_elements` (which
starts from an empty accumulator) is deduplicated by (path, line), with
path and line read from the element at capture time; in the round-trip
scenario a link's unrecognized child (with its unrecognized attribute)
appears exactly once, with its capture-time path and line, and not again
under its sibling's capture.  The original claim's stronger reading — that
every captured undefined element appears in the list — is FALSE: a
duplicate (path, line) key suppresses not just the record but the recursion
into that element, dropping its entire captured subtree even when the
subtree's own keys are fresh (see the counterexample). -/
theorem collect_dedup_by_path_line :
    (∀ (fuel : Nat) (e : Element) (acc : List UndefinedData),
      KeysOk acc → KeysOk (collectNestedF fuel e acc)) ∧
    (∀ root : Element, KeysOk (getUndefinedElements root)) ∧
    parseURDF scenC8Doc = .ok eScenC8 ∧
    getUndefinedElements eScenC8 =
      [⟨"custom", "/robot/link/custom", 3, true⟩] := by
  have main : ∀ (fuel : Nat) (e : Element) (acc : List UndefinedData),
      KeysOk acc → KeysOk (collectNestedF fuel e acc) := by
    intro fuel
    induction fuel with
    | zero => intro e acc h; exact h
    | succ n ih =>
      intro e acc h
      have hstep : ∀ (acc2 : List UndefinedData), KeysOk acc2 →
          ∀ (x : Element), KeysOk (collectStepUndef (collectNestedF n) acc2 x) := by
        intro acc2 hacc x
        unfold collectStepUndef
        split
        · exact hacc
        · next hcond =>
          refine ih x _ (keysOk_append hacc ?_)
          simp only [Bool.not_eq_true] at hcond
          exact hcond
      have hfold1 : ∀ (lu : List Element) (acc2 : List UndefinedData),
          KeysOk acc2 →
          KeysOk (lu.foldl (collectStepUndef (collectNestedF n)) acc2) := by
        intro lu
        induction lu with
        | nil => intro acc2 h2; exact h2
        | cons a rest ihl => intro acc2 h2; exact ihl _ (hstep acc2 h2 a)
      have hfoldrec : ∀ (le : List Element) (acc2 : List UndefinedData),
          KeysOk acc2 →
          KeysOk (le.foldl (fun a x => collectNestedF n x a) acc2) := by
        intro le
        induction le with
        | nil => intro acc2 h2; exact h2
        | cons a rest ihl => intro acc2 h2; exact ihl _ (ih a _ h2)
      have hfoldslots : ∀ (ls : List (String × Option Element))
          (acc2 : List UndefinedData), KeysOk acc2 →
          KeysOk (ls.foldl
            (fun a p => match p.2 with | some x => collectNestedF n x a | none => a)
            acc2) := by
        intro ls
        induction ls with
        | nil => intro acc2 h2; exact h2
        | cons a rest ihl =>
          intro acc2 h2
          cases a with
          | mk nm oe =>
            cases oe with
            | none => exact ihl _ h2
            | some x => exact ihl _ (ih x _ h2)
      cases e with
      | mk d u m l j t s =>
        have h1 : KeysOk (List.foldl (collectStepUndef (collectNestedF n)) acc u) :=
          hfold1 u acc h
        have hacc2 : KeysOk
            (if d.undefinedAttributes ≠ [] ∧
                hasKey (List.foldl (collectStepUndef (collectNestedF n)) acc u)
                  d.path d.line = false then
              List.foldl (collectStepUndef (collectNestedF n)) acc u ++
                [⟨d.tag, d.path, d.line, false⟩]
            else List.foldl (collectStepUndef (collectNestedF n)) acc u) := by
          split
          · next hcond => exact keysOk_append h1 hcond.2
          · exact h1
        show KeysOk (collectBody (collectNestedF n) (.mk d u m l j t s) acc)
        simp only [collectBody]
        split
        · exact hfoldrec t _ (hfoldrec j _ (hfoldrec l _ (hfoldrec m _ hacc2)))
        · exact hfoldslots s _ hacc2
  exact ⟨main, fun root => main _ root [] List.Pairwise.nil, rfl, by decide⟩

def eC8W : Element :=
  Element.mk { kind := .undefinedE, tag := "zzz", path := "/robot/zzz", line := 9 }
    [] [] [] [] [] []

theorem collect_dedup_witness :
    KeysOk ([] : List UndefinedData) ∧ KeysOk (collectNestedF 1 eC8W []) :=
  ⟨List.Pairwise.nil, collect_dedup_by_path_line.1 1 eC8W [] List.Pairwise.nil⟩

/-- Two unrecognized siblings written on the same source line share a
(path, line) key; the second one contains a child with a fresh key. -/
def dupKeyDoc : XmlNode :=
  XmlNode.mk "robot" [("name", "r")] 1 none
    [XmlNode.mk "foo" [] 2 none [],
     XmlNode.mk "foo" [] 2 none [XmlNode.mk "bar" [("x", "1")] 3 none []]]

/-- What `_parse_xml_elements` produces for `dupKeyDoc`. -/
def eDupBar : Element :=
  Element.mk { kind := .undefinedE, tag := "bar", path := "/robot/foo/bar", line := 3, undefinedAttributes := [("x", "1")] }
    [] [] [] [] [] []

def eDupFoo1 : Element :=
  Element.mk { kind := .undefinedE, tag := "foo", path := "/robot/foo", line := 2 }
    [] [] [] [] [] []

def eDupFoo2 : Element :=
  Element.mk { kind := .undefinedE, tag := "foo", path := "/robot/foo", line := 2 }
    [eDupBar] [] [] [] [] []

def eDupKey : Element :=
  Element.mk { kind := .robot, tag := "robot", path := "/robot", line := 1, name := some "r" }
    [eDupFoo1, eDupFoo2] [] [] [] [] []

/-- C8 counterexample: `bar` (path `/robot/foo/bar`, line 3, a fresh key) is
captured in the parsed tree under the second `foo`, but the collection drops
it: the duplicate key of the second `foo` suppresses the recursion into its
subtree, so the returned list does not contain each undefined element once —
`bar` appears zero times. -/
theorem collect_drops_subtree_of_duplicate_key :
    parseURDF dupKeyDoc = .ok eDupKey ∧
    (eDupKey.undefEls.map fun u => u.undefEls.map fun v => v.data.path) =
      [[], ["/robot/foo/bar"]] ∧
    getUndefinedElements eDupKey = [⟨"foo", "/robot/foo", 2, true⟩] :=
  ⟨rfl, by decide, by decide⟩
